import Mathlib

/-!
Verification of the Thalassa CSI driver against its design specification.

The Go sources of the driver (controller volume/snapshot/publish handlers,
node mount pipeline, mounter helpers and the Thalassa client `Check`
classification) are shallowly embedded below: every remote or OS call is an
explicit input (an `Except` value or a function of time), handlers are pure
functions from a request plus such an environment to a result together with
the list of remote side effects they issued, and Go `int64` arithmetic is
modelled with `Int`.
-/

deriving instance DecidableEq for Except

namespace ThalassaCSI

/-! ## Byte-size constants -/

def kiB : Int := 1024

def miB : Int := 1024 * 1024

def giB : Int := 1024 * 1024 * 1024

def tiB : Int := 1024 * 1024 * 1024 * 1024

/-- Modelled from the spec: the default volume size used when neither
`required` nor `limit` is set.  The body of `getStorageSizeFromCapacityRange`
is not part of the sources (only its test table is); the spec fixes
"both absent → default size". -/
def defaultVolumeSizeInBytes : Int := 16 * giB

/-- Modelled from the spec: the platform minimum volume size. The value 1 GiB
is pinned by the test's expected message "minimum supported volume size (1Gi)". -/
def minimumVolumeSizeInBytes : Int := 1 * giB

/-- Modelled from the spec: the platform maximum volume size. The value 16 TiB
is pinned by the test's expected message "maximum supported volume size (16Ti)". -/
def maximumVolumeSizeInBytes : Int := 16 * tiB

/-- Modelled from the spec: render a byte count with a binary prefix
("16Ti", "1Gi", "1024Mi", ...): pick the largest unit not exceeding the
value, print one decimal digit and drop a trailing ".0", as the test's
expected error messages require. -/
def formatBytes (inputBytes : Int) : String :=
  let p : Int × String :=
    if tiB ≤ inputBytes then (tiB, "Ti")
    else if giB ≤ inputBytes then (giB, "Gi")
    else if miB ≤ inputBytes then (miB, "Mi")
    else if kiB ≤ inputBytes then (kiB, "Ki")
    else (1, "")
  let unit := p.1
  let tenths := (inputBytes * 10 + unit / 2) / unit
  let whole := tenths / 10
  let frac := tenths % 10
  let num := if frac == 0 then toString whole else toString whole ++ "." ++ toString frac
  num ++ p.2

/-- A CSI capacity range: a `(required, limit)` pair of byte counts, where a
non-positive entry counts as unset. -/
structure CapacityRange where
  requiredBytes : Int
  limitBytes : Int
deriving Repr, DecidableEq

/-- Modelled from the spec: the capacity resolver
`getStorageSizeFromCapacityRange`, whose body is missing from the sources
(only its callers and its test table are present).  Spec: both absent →
default size; `required` below the platform minimum is clamped up provided no
limit forbids it; `required` above the maximum errors; `limit` below the
minimum errors; `limit` below `required` errors; `limit` alone is used;
`required` alone is used; error text renders the boundary constants in
binary-prefixed form. -/
def getStorageSizeFromCapacityRange (capRange : Option CapacityRange) : Except String Int :=
  match capRange with
  | none => .ok defaultVolumeSizeInBytes
  | some cr =>
    let required := cr.requiredBytes
    let limit := cr.limitBytes
    if ¬ 0 < required ∧ ¬ 0 < limit then
      .ok defaultVolumeSizeInBytes
    else if 0 < required ∧ 0 < limit ∧ limit < required then
      let fl := formatBytes limit
      let fr := formatBytes required
      .error s!"limit ({fl}) can not be less than required ({fr}) size"
    else if 0 < required ∧ maximumVolumeSizeInBytes < required then
      let fr := formatBytes required
      let fm := formatBytes maximumVolumeSizeInBytes
      .error s!"required ({fr}) can not exceed maximum supported volume size ({fm})"
    else if 0 < limit ∧ limit < minimumVolumeSizeInBytes then
      let fl := formatBytes limit
      let fm := formatBytes minimumVolumeSizeInBytes
      .error s!"limit ({fl}) can not be less than minimum supported volume size ({fm})"
    else if 0 < limit ∧ maximumVolumeSizeInBytes < limit then
      let fl := formatBytes limit
      let fm := formatBytes maximumVolumeSizeInBytes
      .error s!"limit ({fl}) can not exceed maximum supported volume size ({fm})"
    else if 0 < required then
      .ok (max required minimumVolumeSizeInBytes)
    else
      .ok limit

/-! ## Go string helpers used by the driver -/

/-- `strings.EqualFold` restricted to the simple case folding the driver's
status comparisons need (computed on character lists so that it evaluates by
reduction). -/
def equalFold (a b : String) : Bool :=
  a.data.map Char.toLower == b.data.map Char.toLower

/-- `strings.TrimSpace`: drop leading and trailing whitespace (computed on
the character list so that it evaluates by reduction). -/
def trimSpace (s : String) : String :=
  ⟨(((s.data.dropWhile Char.isWhitespace).reverse.dropWhile Char.isWhitespace).reverse : List Char)⟩

/-- The file component of `filepath.Split`: everything after the final
slash. -/
def splitFileName (p : String) : String :=
  ⟨p.data.foldl (fun acc c => if c = '/' then [] else acc ++ [c]) []⟩

/-! ## The Thalassa client error model

`Check` (client package) classifies an HTTP error response: a 404 whose body
decodes as a `ServerErrorMessage` becomes `errors.Join(ErrNotFound, message)`,
a 404 whose body does not decode becomes the sentinel `ErrNotFound` itself,
400 analogously with `ErrBadRequest`, and anything else a formatted plain
error.  A joined error is a fresh value: Go `==` against the sentinel is
false for it, while `errors.Is` still matches. -/

inductive GoErr where
  /-- the sentinel `client.ErrNotFound` value itself -/
  | errNotFound
  /-- `errors.Join(client.ErrNotFound, errors.New msg)` -/
  | joinedNotFound (msg : String)
  /-- the sentinel `client.ErrBadRequest` value itself -/
  | errBadRequest
  /-- `errors.Join(client.ErrBadRequest, errors.New msg)` -/
  | joinedBadRequest (msg : String)
  /-- `fmt.Errorf("server returned status %d: %s", code, body)` -/
  | serverStatus (code : Nat) (body : String)
  /-- any other plain error -/
  | other (msg : String)
deriving Repr, DecidableEq

/-- Go `err == client.ErrNotFound`: identity comparison with the sentinel;
false for a joined not-found error. -/
def GoErr.isSentinelNotFound : GoErr → Bool
  | .errNotFound => true
  | _ => false

/-- `client.IsNotFound` = `errors.Is(err, client.ErrNotFound)`: matches the
sentinel and any join containing it. -/
def GoErr.isNotFound : GoErr → Bool
  | .errNotFound => true
  | .joinedNotFound _ => true
  | _ => false

/-- `err.Error()` for the modelled client errors (`errors.Join` renders the
joined messages on separate lines). -/
def GoErr.message : GoErr → String
  | .errNotFound => "not found"
  | .joinedNotFound m => "not found\n" ++ m
  | .errBadRequest => "bad request"
  | .joinedBadRequest m => "bad request\n" ++ m
  | .serverStatus c b => s!"server returned status {c}: {b}"
  | .other m => m

/-- `thalassaCloudClient.Check`: `statusCode` is the HTTP status,
`parsedMessage` the result of decoding the body as a `ServerErrorMessage`
(`none` when `json.Unmarshal` fails), `rawBody` the raw body text.  Returns
`none` when the response is not an error (`resp.IsError()` is status ≥ 400). -/
def thalassaCheck (statusCode : Nat) (parsedMessage : Option String) (rawBody : String) :
    Option GoErr :=
  if 400 ≤ statusCode then
    if statusCode == 404 then
      match parsedMessage with
      | none => some .errNotFound
      | some m => some (.joinedNotFound m)
    else if statusCode == 400 then
      match parsedMessage with
      | none => some .errBadRequest
      | some m => some (.joinedBadRequest m)
    else
      some (.serverStatus statusCode rawBody)
  else
    none

/-! ## gRPC status codes and the driver's error values -/

inductive Code where
  | ok
  | cancelledCode
  | unknown
  | invalidArgument
  | deadlineExceededCode
  | notFound
  | alreadyExists
  | permissionDenied
  | resourceExhausted
  | failedPrecondition
  | aborted
  | outOfRange
  | unimplemented
  | internal
  | unavailable
deriving Repr, DecidableEq

/-- Why a convergence poll gave up. -/
inductive PollFailure where
  /-- the 5-minute deadline expired (`context.DeadlineExceeded` from the
  poll's own timeout context) -/
  | timedOut
  /-- the caller's context was cancelled -/
  | cancelled
  /-- a `GetVolume` inside the poll failed
  (`fmt.Errorf("error getting volume: %w", err)`) -/
  | getVolumeErr (e : GoErr)
deriving Repr, DecidableEq

/-- An error returned by a driver RPC handler.  `status` is a gRPC status
error built with `status.Error(f)`; `goErr` is a client error returned
unchanged; `plain` is a non-status error built locally; `pollFail` is
`fmt.Errorf(msg + ": %w", err)` wrapping a poll failure — the latter three
carry no gRPC status code. -/
inductive DriverErr where
  | status (code : Code) (msg : String)
  | goErr (e : GoErr)
  | plain (msg : String)
  | pollFail (msg : String) (f : PollFailure)
deriving Repr, DecidableEq

/-- The gRPC code the orchestrator observes for a handler error: the code of
a status error, and `Unknown` for every non-status error (gRPC's mapping for
plain Go errors). -/
def grpcCodeOf : DriverErr → Code
  | .status c _ => c
  | _ => .unknown

/-- `err.Error()` for driver errors (the status-error rendering abbreviates
Go's `rpc error: code = ... desc = ...`). -/
def DriverErr.message : DriverErr → String
  | .status _ m => "rpc error: " ++ m
  | .goErr e => e.message
  | .plain m => m
  | .pollFail m _ => m

/-! ## `wait.PollUntilContextTimeout(ctx, interval, deadline, immediate, cond)`

Modelled with discrete time: with `immediate = true` the condition runs at
times `0, interval, 2*interval, ...` while the time is within the deadline;
the caller's cancellation (`cancelAt`) is checked at every tick before the
condition runs; when the ticks are exhausted the poll's timeout context
expires. -/

inductive PollOutcome where
  | success (t : Nat)
  | cancelled (t : Nat)
  | condError (t : Nat) (e : GoErr)
  | deadlineExceeded
deriving Repr, DecidableEq

/-- The tick times of a poll: `0, interval, ..., ` up to the deadline. -/
def pollTimes (interval deadline : Nat) : List Nat :=
  (List.range (deadline / interval + 1)).map (fun i => i * interval)

/-- Whether the caller's context is already cancelled at time `t`. -/
def cancelledBy (cancelAt : Option Nat) (t : Nat) : Bool :=
  match cancelAt with
  | some c => decide (c ≤ t)
  | none => false

/-- Run the poll over the given tick times. -/
def pollRun (cancelAt : Option Nat) (cond : Nat → Except GoErr Bool) :
    List Nat → PollOutcome
  | [] => .deadlineExceeded
  | t :: rest =>
    if cancelledBy cancelAt t then
      .cancelled t
    else
      match cond t with
      | .error e => .condError t e
      | .ok true => .success t
      | .ok false => pollRun cancelAt cond rest

def pollUntilContextTimeout (interval deadline : Nat) (cancelAt : Option Nat)
    (cond : Nat → Except GoErr Bool) : PollOutcome :=
  pollRun cancelAt cond (pollTimes interval deadline)

/-! ## IaaS resources -/

/-- `iaas.VolumeAttachment`: only the field the driver reads. -/
structure VolumeAttachment where
  attachedToIdentity : String
deriving Repr, DecidableEq

/-- `iaas.Volume`: the fields the driver reads.  `size` is in GiB, as the
remote API stores it. -/
structure Volume where
  identity : String
  name : String
  size : Int
  status : String
  attachments : List VolumeAttachment
deriving Repr, DecidableEq

/-- `iaas.Machine`: the fields used by node resolution. -/
structure Machine where
  identity : String
  name : String
  slug : String
deriving Repr, DecidableEq

/-- `iaas.VolumeType`. -/
structure VolumeType where
  identity : String
  name : String
deriving Repr, DecidableEq

/-- `iaas.Snapshot`: the fields the snapshot handlers read. -/
structure Snapshot where
  identity : String
  name : String
  sourceVolumeIdentity : Option String
  sizeGB : Option Int
  statusAvailable : Bool
deriving Repr, DecidableEq

/-- The driver's configuration fields read by the handlers. -/
structure DriverConfig where
  name : String
  region : String
  vpc : String
  clusterIdentity : String
  kubeConfig : String
  publishInfoVolumeName : String
  customLabels : List (String × String)
  customAnnots : List (String × String)
deriving Repr, DecidableEq

/-- The remote calls a controller handler can issue (beyond reads). -/
inductive RemoteAction where
  | attachVolume (volumeId machineIdentity : String)
  | detachVolume (volumeId machineIdentity : String)
  | createVolume (name : String) (sizeGiB : Int) (volumeTypeIdentity : String)
      (labels annots : List (String × String)) (restoreFromSnapshotId : Option String)
  | createSnapshot (name volumeIdentity : String)
deriving Repr, DecidableEq

/-! ## ControllerPublishVolume / ControllerUnpublishVolume

`src/unnamed/part_002`.  The request is `(volumeId, nodeId, hasCapability,
readonly)`; the environment holds the outcome of every remote call the
handler can make. -/

structure PublishEnv where
  /-- result of the initial `d.iaas.GetVolume(ctx, req.VolumeId)` -/
  getVolume : Except GoErr Volume
  /-- result of `d.getNodeMachineIdentity` (only consulted when a kubeconfig
  is configured) -/
  nodeIdentityLookup : Except DriverErr String
  /-- result of `d.iaas.GetMachine(ctx, id)` -/
  getMachine : String → Except GoErr Machine
  /-- result of `d.iaas.ListMachines` (unfiltered in publish, region/VPC
  filtered in unpublish) -/
  listMachines : Except GoErr (List Machine)
  /-- result of `d.iaas.AttachVolume` -/
  attachResult : Except GoErr Unit
  /-- result of `d.iaas.DetachVolume` -/
  detachResult : Except GoErr Unit
  /-- status of the volume reported by `GetVolume` inside the poll at time `t` -/
  statusAt : Nat → Except GoErr String
  /-- when (if ever) the caller's context is cancelled -/
  cancelAt : Option Nat

/-- The machine-resolution step shared by publish and unpublish: take the
(possibly kubeconfig-translated) node id as a machine identity; on a
sentinel not-found, list machines and take the first whose name, identity or
slug matches; publish fails NotFound on a miss while unpublish treats a miss
as already-detached, so the miss case is reported to the caller. -/
inductive MachineResolution where
  | resolved (machineIdentity : String)
  | missed
  | failed (e : DriverErr)
deriving Repr, DecidableEq

def resolveMachine (env : PublishEnv) (nodeId : String) : MachineResolution :=
  match env.getMachine nodeId with
  | .ok _ => .resolved nodeId
  | .error e =>
    if e.isSentinelNotFound then
      match env.listMachines with
      | .error e2 => .failed (.goErr e2)
      | .ok machines =>
        match machines.find? (fun m =>
            m.name == nodeId || m.identity == nodeId || m.slug == nodeId) with
        | some m => .resolved m.identity
        | none => .missed
    else
      .failed (.goErr e)

/-- The kubeconfig lookaside: when `d.kubeConfig` is set the node id is first
translated to the provider id through the orchestrator's node object. -/
def translateNodeId (cfg : DriverConfig) (env : PublishEnv) (nodeId : String) :
    Except DriverErr String :=
  if cfg.kubeConfig == "" then .ok nodeId else env.nodeIdentityLookup

/-- The attach poll: every 10 seconds up to 5 minutes, until the volume
status equals "attached" up to case. -/
def waitUntilVolumeStatus (env : PublishEnv) (want : String) : PollOutcome :=
  pollUntilContextTimeout 10 300 env.cancelAt
    (fun t => (env.statusAt t).map (fun s => equalFold s want))

def publishPollResult (env : PublishEnv) (cfg : DriverConfig) (vol : Volume)
    (volumeId attachTo : String) :
    Except DriverErr (List (String × String)) × List RemoteAction :=
  match waitUntilVolumeStatus env "attached" with
  | .success _ => (.ok [(cfg.publishInfoVolumeName, vol.name)], [.attachVolume volumeId attachTo])
  | .cancelled _ =>
    (.error (.pollFail "failed to attach volume" .cancelled), [.attachVolume volumeId attachTo])
  | .condError _ e =>
    (.error (.pollFail "failed to attach volume" (.getVolumeErr e)), [.attachVolume volumeId attachTo])
  | .deadlineExceeded =>
    (.error (.pollFail "failed to attach volume" .timedOut), [.attachVolume volumeId attachTo])

/-- `ControllerPublishVolume`.  Returns the handler result (the publish
context on success) together with the attach calls issued. -/
def controllerPublishVolume (cfg : DriverConfig) (env : PublishEnv)
    (volumeId nodeId : String) (hasCapability readonly : Bool) :
    Except DriverErr (List (String × String)) × List RemoteAction :=
  if volumeId == "" then
    (.error (.status .invalidArgument "ControllerPublishVolume Volume ID must be provided"), [])
  else if nodeId == "" then
    (.error (.status .invalidArgument "ControllerPublishVolume Node ID must be provided"), [])
  else if !hasCapability then
    (.error (.status .invalidArgument "ControllerPublishVolume Volume capability must be provided"), [])
  else if readonly then
    (.error (.status .alreadyExists "read only Volumes are not supported"), [])
  else
    match env.getVolume with
    | .error e =>
      if e.isSentinelNotFound then
        (.error (.status .notFound s!"volume {volumeId} does not exist"), [])
      else
        (.error (.goErr e), [])
    | .ok vol =>
      match translateNodeId cfg env nodeId with
      | .error e => (.error e, [])
      | .ok nodeId2 =>
        match resolveMachine env nodeId2 with
        | .failed e => (.error e, [])
        | .missed =>
          (.error (.status .notFound s!"machine {nodeId2} does not exist"), [])
        | .resolved attachTo =>
          if vol.attachments.any (fun a => a.attachedToIdentity == attachTo) then
            (.ok [(cfg.publishInfoVolumeName, vol.name)], [])
          else
            let attachedToMachine :=
              ((vol.attachments.getLast?).map VolumeAttachment.attachedToIdentity).getD ""
            if attachedToMachine ≠ "" then
              (.error (.status .failedPrecondition
                s!"volume {volumeId} is attached to the wrong machine ({attachedToMachine}), detach the volume to fix it"), [])
            else
              match env.attachResult with
              | .error e => (.error (.goErr e), [.attachVolume volumeId attachTo])
              | .ok _ => publishPollResult env cfg vol volumeId attachTo

def unpublishPollResult (env : PublishEnv) (volumeId attachTo : String) :
    Except DriverErr Unit × List RemoteAction :=
  match waitUntilVolumeStatus env "available" with
  | .success _ => (.ok (), [.detachVolume volumeId attachTo])
  | .cancelled _ =>
    (.error (.pollFail "failed to detach volume" .cancelled), [.detachVolume volumeId attachTo])
  | .condError _ e =>
    (.error (.pollFail "failed to detach volume" (.getVolumeErr e)), [.detachVolume volumeId attachTo])
  | .deadlineExceeded =>
    (.error (.pollFail "failed to detach volume" .timedOut), [.detachVolume volumeId attachTo])

/-- `ControllerUnpublishVolume`.  A sentinel not-found on the volume lookup
and a machine-resolution miss are both treated as already detached. -/
def controllerUnpublishVolume (cfg : DriverConfig) (env : PublishEnv)
    (volumeId nodeId : String) :
    Except DriverErr Unit × List RemoteAction :=
  if volumeId == "" then
    (.error (.status .invalidArgument "ControllerUnpublishVolume Volume ID must be provided"), [])
  else
    match env.getVolume with
    | .error e =>
      if e.isSentinelNotFound then
        (.ok (), [])
      else
        (.error (.goErr e), [])
    | .ok _vol =>
      match translateNodeId cfg env nodeId with
      | .error e => (.error e, [])
      | .ok nodeId2 =>
        match resolveMachine env nodeId2 with
        | .failed e => (.error e, [])
        | .missed => (.ok (), [])
        | .resolved attachTo =>
          match env.detachResult with
          | .error e => (.error (.goErr e), [.detachVolume volumeId attachTo])
          | .ok _ => unpublishPollResult env volumeId attachTo

/-! ## Go map helpers

Merging is done against Go maps; only membership and lookup are observable,
so association lists with first-match lookup model them (the driver inserts
each key at most once per loop, and Go map keys are unique). -/

def lookupKV (m : List (String × String)) (k : String) : Option String :=
  (m.find? (fun kv => kv.1 == k)).map (fun kv => kv.2)

/-- `if _, ok := m[k]; !ok { m[k] = v }`. -/
def insertIfAbsent (m : List (String × String)) (k v : String) : List (String × String) :=
  if m.any (fun kv => kv.1 == k) then m else m ++ [(k, v)]

/-- Go map assignment `m[k] = v`. -/
def setKV (m : List (String × String)) (k v : String) : List (String × String) :=
  if m.any (fun kv => kv.1 == k) then
    m.map (fun kv => if kv.1 == k then (k, v) else kv)
  else
    m ++ [(k, v)]

/-- The `for k, v := range custom { if _, ok := base[k]; !ok { base[k] = v } }`
loop from `CreateVolume` / `getOrCreateSnapshot`. -/
def mergeCustom (base custom : List (String × String)) : List (String × String) :=
  custom.foldl (fun acc kv => insertIfAbsent acc kv.1 kv.2) base

/-! ## CreateVolume / DeleteVolume (`src/driver/controller_volumes.go`) -/

/-- The capability access types distinguished by the handlers. -/
inductive AccessTypeKind where
  | block
  | mount
  | unknownKind
deriving Repr, DecidableEq

structure VolumeCapability where
  /-- whether the capability's access mode equals the single supported mode -/
  modeSupported : Bool
  accessType : AccessTypeKind
deriving Repr, DecidableEq

/-- `validateCapabilities`: one violation string per offending capability
(the source collects them into a sorted set; only emptiness is observed by
`CreateVolume`). -/
def validateCapabilities (caps : List VolumeCapability) : List String :=
  caps.foldl
    (fun acc c =>
      let acc1 := if c.modeSupported then acc else acc ++ ["unsupported access mode"]
      match c.accessType with
      | .block => acc1
      | .mount => acc1
      | .unknownKind => acc1 ++ ["unsupported access type"])
    []

/-- `getVolumeTypeByFilter`: first volume type satisfying the predicate. -/
def getVolumeTypeByFilter (ts : List VolumeType) (f : VolumeType → Bool) : Option String :=
  (ts.find? f).map (fun t => t.identity)

/-- `getVolumeTypeByFilters`: ordered strategy list, first hit wins. -/
def getVolumeTypeByFilters (ts : List VolumeType) (fs : List (VolumeType → Bool)) :
    Option String :=
  match fs with
  | [] => none
  | f :: rest =>
    match getVolumeTypeByFilter ts f with
    | some id => some id
    | none => getVolumeTypeByFilters ts rest

def driverLabels (cfg : DriverConfig) : List (String × String) :=
  [("k8s.thalassa.cloud/csi-driver", "true"),
   ("k8s.thalassa.cloud/csi-driver-name", cfg.name)]

def driverAnnots : List (String × String) :=
  [("k8s.thalassa.cloud/description", "Provisioned by Thalassa CSI driver")]

/-- The label map sent with a remote create: driver-identifying entries
first, operator-supplied entries merged in only where the key is absent,
then the cluster-identity label assigned unconditionally when configured. -/
def volumeLabels (cfg : DriverConfig) : List (String × String) :=
  let base := mergeCustom (driverLabels cfg) cfg.customLabels
  if cfg.clusterIdentity ≠ "" then
    setKV base "k8s.thalassa.cloud/cluster-identity" cfg.clusterIdentity
  else
    base

def volumeAnnots (cfg : DriverConfig) : List (String × String) :=
  mergeCustom driverAnnots cfg.customAnnots

structure CreateVolumeReq where
  name : String
  capabilities : List VolumeCapability
  capacityRange : Option CapacityRange
  parameters : List (String × String)
  /-- the `"region"` segment of each requisite topology (`none` when the
  segment is absent) -/
  requisiteRegions : List (Option String)
  /-- `VolumeContentSource_SnapshotSource.SnapshotId` when a snapshot content
  source is present -/
  snapshotSource : Option String
deriving Repr, DecidableEq

structure CreateVolumeEnv where
  /-- `GetVolume(volumeIdentity)`: `some` when found, `none` on a not-found
  (the handler treats a not-found error as an absent volume) -/
  getVolume : Except GoErr (Option Volume)
  listVolumeTypes : Except GoErr (List VolumeType)
  getSnapshot : String → Except GoErr Unit
  createResult : Except GoErr Volume

structure CreateVolumeResp where
  volumeId : String
  capacityBytes : Int
  accessibleRegion : Option String
  contentSnapshotId : Option String
deriving Repr, DecidableEq

/-- The volume-identity idempotency key: the `volume-identity` parameter when
set, the volume name otherwise. -/
def volumeIdentityKey (req : CreateVolumeReq) : String :=
  match lookupKV req.parameters "volume-identity" with
  | some v => if v == "" then req.name else v
  | none => req.name

/-- The requested volume type parameter, defaulting to `"block"`. -/
def volumeTypeParam (req : CreateVolumeReq) : String :=
  match lookupKV req.parameters "volume-type" with
  | some v => if v == "" then "block" else v
  | none => "block"

def createVolumePhaseTwo (cfg : DriverConfig) (env : CreateVolumeEnv)
    (req : CreateVolumeReq) (size : Int) :
    Except DriverErr CreateVolumeResp × List RemoteAction :=
  match env.listVolumeTypes with
  | .error e => (.error (.status .internal e.message), [])
  | .ok volumeTypes =>
    match getVolumeTypeByFilters volumeTypes
        [fun t => t.identity == volumeTypeParam req,
         fun t => equalFold t.name (volumeTypeParam req)] with
    | none =>
      (.error (.status .internal "rpc error: volume type not found"), [])
    | some volumeTypeIdentity =>
      let labels := volumeLabels cfg
      let annots := volumeAnnots cfg
      let withSnapshot : Except DriverErr (Option String) :=
        match req.snapshotSource with
        | none => .ok none
        | some snapshotID =>
          if snapshotID == "" then
            .error (.status .invalidArgument "snapshot ID is empty")
          else
            match env.getSnapshot snapshotID with
            | .error e =>
              if e.isNotFound then
                .error (.status .notFound "snapshot not found for restore")
              else
                .error (.status .internal e.message)
            | .ok _ => .ok (some snapshotID)
      match withSnapshot with
      | .error e => (.error e, [])
      | .ok restoreId =>
        let action := RemoteAction.createVolume req.name (size / giB) volumeTypeIdentity
          labels annots restoreId
        match env.createResult with
        | .error e =>
          if restoreId.isSome && e.isNotFound then
            (.error (.status .notFound "snapshot not found for restore"), [action])
          else
            (.error (.status .internal e.message), [action])
        | .ok vol =>
          (.ok { volumeId := vol.identity, capacityBytes := size,
                 accessibleRegion := some cfg.region,
                 contentSnapshotId := restoreId }, [action])

/-- `CreateVolume`. -/
def createVolume (cfg : DriverConfig) (env : CreateVolumeEnv) (req : CreateVolumeReq) :
    Except DriverErr CreateVolumeResp × List RemoteAction :=
  if req.name == "" then
    (.error (.status .invalidArgument "CreateVolume Name must be provided"), [])
  else if req.capabilities.length == 0 then
    (.error (.status .invalidArgument "CreateVolume Volume capabilities must be provided"), [])
  else if validateCapabilities req.capabilities ≠ [] then
    (.error (.status .invalidArgument "volume capabilities cannot be satisified"), [])
  else
    match getStorageSizeFromCapacityRange req.capacityRange with
    | .error e => (.error (.status .outOfRange s!"invalid capacity range: {e}"), [])
    | .ok size =>
      match req.requisiteRegions.find? (fun r =>
          match r with
          | some region => region != cfg.region
          | none => false) with
      | some _ =>
        (.error (.status .resourceExhausted "volume can be only created in configured region"), [])
      | none =>
        match env.getVolume with
        | .error e =>
          if e.isNotFound then
            createVolumePhaseTwo cfg env req size
          else
            (.error (.status .internal e.message), [])
        | .ok (some volume) =>
          if volume.size * giB ≠ size then
            (.error (.status .alreadyExists s!"invalid option requested size: {size}"), [])
          else
            (.ok { volumeId := volume.identity, capacityBytes := volume.size * giB,
                   accessibleRegion := none, contentSnapshotId := none }, [])
        | .ok none => createVolumePhaseTwo cfg env req size

/-- `DeleteVolume`: idempotent on a not-found (classified with
`client.IsNotFound`). -/
def deleteVolume (deleteResult : Except GoErr Unit) (volumeId : String) :
    Except DriverErr Unit :=
  if volumeId == "" then
    .error (.status .invalidArgument "DeleteVolume Volume ID must be provided")
  else
    match deleteResult with
    | .error e => if e.isNotFound then .ok () else .error (.goErr e)
    | .ok _ => .ok ()

/-! ## CreateSnapshot (`src/driver/controller_snapshots.go`) -/

structure CSISnapshot where
  snapshotId : String
  sourceVolumeId : String
  sizeBytes : Int
  readyToUse : Bool
deriving Repr, DecidableEq

/-- `mapToCSISnapshot`. -/
def mapToCSISnapshot (s : Snapshot) : CSISnapshot :=
  { snapshotId := s.identity,
    sourceVolumeId := (s.sourceVolumeIdentity).getD "",
    sizeBytes := ((s.sizeGB).map (fun g => g * giB)).getD 0,
    readyToUse := s.statusAvailable }

structure SnapEnv where
  /-- `ListSnapshots` filtered by region and the requested name -/
  listSnapshotsByName : Except GoErr (List Snapshot)
  /-- `ListVolumes` filtered by region and the source volume name -/
  listVolumesByName : Except GoErr (List Volume)
  createResult : Except GoErr Snapshot
  waitAvailable : Except GoErr Unit
  getSnapshot : String → Except GoErr Snapshot

/-- `getOrCreateSnapshot`: find by exact name; otherwise resolve the source
volume by name, requiring exactly one match (zero → a NotFound status error,
several → an Internal status error), then create. -/
def getOrCreateSnapshot (env : SnapEnv) (name sourceVolumeId : String) :
    Except DriverErr Snapshot × List RemoteAction :=
  match env.listSnapshotsByName with
  | .error e => (.error (.status .internal s!"failed to list snapshots: {e.message}"), [])
  | .ok snaps =>
    match snaps.find? (fun s => s.name == name) with
    | some s => (.ok s, [])
    | none =>
      match env.listVolumesByName with
      | .error e => (.error (.status .internal s!"failed to list volumes: {e.message}"), [])
      | .ok volumes =>
        if volumes.length == 0 then
          (.error (.status .notFound s!"volume with name {sourceVolumeId} not found"), [])
        else if 1 < volumes.length then
          (.error (.status .internal s!"multiple volumes found with name {sourceVolumeId}"), [])
        else
          match volumes.head? with
          | none => (.error (.status .notFound s!"volume with name {sourceVolumeId} not found"), [])
          | some volume =>
            match env.createResult with
            | .error e =>
              (.error (.status .internal e.message), [.createSnapshot name volume.identity])
            | .ok s => (.ok s, [.createSnapshot name volume.identity])

/-- `CreateSnapshot`: every error from `getOrCreateSnapshot` — including its
NotFound status for a missing source volume — is re-wrapped as
`status.Error(codes.Internal, err.Error())`. -/
def createSnapshotCall (env : SnapEnv) (name sourceVolumeId : String) :
    Except DriverErr CSISnapshot × List RemoteAction :=
  if name == "" then
    (.error (.status .invalidArgument "CreateSnapshot Name must be provided"), [])
  else if sourceVolumeId == "" then
    (.error (.status .invalidArgument "CreateSnapshot Source Volume ID must be provided"), [])
  else
    match getOrCreateSnapshot env name sourceVolumeId with
    | (.error e, acts) => (.error (.status .internal e.message), acts)
    | (.ok snap, acts) =>
      match env.waitAvailable with
      | .error e => (.error (.status .internal e.message), acts)
      | .ok _ =>
        match env.getSnapshot snap.identity with
        | .error e =>
          if e.isNotFound then
            (.error (.status .notFound "snapshot not found"), acts)
          else
            (.error (.status .internal e.message), acts)
        | .ok s2 => (.ok (mapToCSISnapshot s2), acts)

/-! ## Mounter probes (`src/driver/mounter.go`) -/

/-- Outcome of running an external command. -/
inductive ExecOutcome where
  | ran
  | exited (code : Nat)
  | execFail (msg : String)
  | notInPath
deriving Repr, DecidableEq

/-- `blkid` exit code 2: no identifiers (no filesystem signature) found. -/
def blkidExitStatusNoIdentifiers : Nat := 2

/-- `mounter.IsFormatted`: run `blkid` on the device; a clean exit means a
signature exists, exit code 2 means none, anything else is an error. -/
def isFormatted (source : String) (blkid : ExecOutcome) : Except String Bool :=
  if source == "" then
    .error "source is not specified"
  else
    match blkid with
    | .notInPath => .error "blkid executable not found in PATH"
    | .ran => .ok true
    | .exited c =>
      if c == blkidExitStatusNoIdentifiers then .ok false
      else .error "checking formatting failed"
    | .execFail m => .error m

def runningState : String := "running"

/-- `mounter.IsAttached`: resolve the device symlink, take the file
component as the device name, read
`/sys/class/block/<device>/device/state`, and require its content to equal
`strings.TrimSpace(runningState)` — the constant is trimmed, the file
content is not. -/
def isAttached (evalSymlinks : String → Except String String)
    (readFile : String → Except String String) (source : String) :
    Except String Unit :=
  match evalSymlinks source with
  | .error e => .error s!"error evaluating the symbolic link: {e}"
  | .ok out =>
    let deviceName := splitFileName out
    if deviceName == "" then
      .error s!"error device name is empty for path {out}"
    else
      match readFile ("/sys/class/block/" ++ deviceName ++ "/device/state") with
      | .error e => .error s!"error reading the device state file: {e}"
      | .ok content =>
        if content ≠ trimSpace runningState then
          .error s!"error comparing the state file content, expected: {runningState}, got: {content}"
        else
          .ok ()

/-- `getDeviceByIDPath`: the by-id directory plus the fixed QEMU prefix plus
the volume id. -/
def getDeviceByIDPath (volumeName : String) : String :=
  "/dev/disk/by-id/" ++ "scsi-0QEMU_QEMU_HARDDISK_" ++ volumeName

/-! ## NodeStageVolume (`src/driver/node.go`) -/

/-- The tagged access type of a node request capability. -/
inductive NodeAccessType where
  | block
  | mount (fsType : String) (mountFlags : List String)
deriving Repr, DecidableEq

/-- The OS actions a node handler can take. -/
inductive NodeAction where
  | format (device fsType : String)
  | mountDev (source target fsType : String) (opts : List String)
  | resizeFs (device target : String)
deriving Repr, DecidableEq

def annsNoFormatVolume : List String :=
  ["csi.k8s.thalassa.cloud/noformat"]

/-- The no-format marker probe: the stage handler checks the volume context
for each recognized annotation key. -/
def hasNoFormatMarker (volumeContext : List (String × String)) : Bool :=
  annsNoFormatVolume.any (fun ann => volumeContext.any (fun kv => kv.1 == ann))

structure StageEnv where
  validateAttachment : Bool
  evalSymlinks : String → Except String String
  readStateFile : String → Except String String
  blkid : ExecOutcome
  formatResult : Except String Unit
  isMountedTarget : Except String Bool
  mountResult : Except String Unit
  /-- whether `os.Stat(source)` succeeds -/
  sourceExists : Bool
  needResize : Except String Bool
  resizeResult : Except String Unit

def nodeStageResizePhase (env : StageEnv) (source target : String)
    (acts : List NodeAction) : Except DriverErr Unit × List NodeAction :=
  if env.sourceExists then
    match env.needResize with
    | .error e =>
      (.error (.status .internal s!"Could not determine if volume need to be resized: {e}"), acts)
    | .ok true =>
      match env.resizeResult with
      | .error e => (.error (.status .internal s!"Could not resize volume: {e}"),
          acts ++ [.resizeFs source target])
      | .ok _ => (.ok (), acts ++ [.resizeFs source target])
    | .ok false => (.ok (), acts)
  else
    (.ok (), acts)

def nodeStageMountPhase (env : StageEnv) (source target fsType : String)
    (opts : List String) (acts : List NodeAction) :
    Except DriverErr Unit × List NodeAction :=
  match env.isMountedTarget with
  | .error e => (.error (.plain e), acts)
  | .ok true => nodeStageResizePhase env source target acts
  | .ok false =>
    match env.mountResult with
    | .error e => (.error (.status .internal e), acts ++ [.mountDev source target fsType opts])
    | .ok _ => nodeStageResizePhase env source target (acts ++ [.mountDev source target fsType opts])

/-- `NodeStageVolume`: block access is a no-op; mount access derives the
device path from the fixed naming convention, optionally validates the
attachment, formats only when `IsFormatted` reports no signature, mounts
only when not already mounted, then grows the filesystem when needed. -/
def nodeStageVolume (env : StageEnv) (volumeId stagingTargetPath : String)
    (cap : Option NodeAccessType) (volumeContext : List (String × String)) :
    Except DriverErr Unit × List NodeAction :=
  if volumeId == "" then
    (.error (.status .invalidArgument "NodeStageVolume Volume ID must be provided"), [])
  else if stagingTargetPath == "" then
    (.error (.status .invalidArgument "NodeStageVolume Staging Target Path must be provided"), [])
  else
    match cap with
    | none =>
      (.error (.status .invalidArgument "NodeStageVolume Volume Capability must be provided"), [])
    | some .block => (.ok (), [])
    | some (.mount fsT flags) =>
      let source := getDeviceByIDPath volumeId
      let target := stagingTargetPath
      let fsType := if fsT == "" then "ext4" else fsT
      if hasNoFormatMarker volumeContext then
        nodeStageMountPhase env source target fsType flags []
      else
        if env.validateAttachment &&
            !(isAttached env.evalSymlinks env.readStateFile source matches .ok _) then
          (.error (.status .internal s!"error retrieving the attachement status {source}"), [])
        else
          match isFormatted source env.blkid with
          | .error e => (.error (.plain e), [])
          | .ok true => nodeStageMountPhase env source target fsType flags []
          | .ok false =>
            match env.formatResult with
            | .error e => (.error (.status .internal e), [.format source fsType])
            | .ok _ => nodeStageMountPhase env source target fsType flags [.format source fsType]

/-! ## NodeGetVolumeStats and `mounter.GetStatistics` -/

structure VolumeStatistics where
  availableBytes : Int
  totalBytes : Int
  usedBytes : Int
  availableInodes : Int
  totalInodes : Int
  usedInodes : Int
deriving Repr, DecidableEq

/-- The fields of `unix.Statfs_t` read by `GetStatistics`. -/
structure StatfsResult where
  bavail : Int
  bsize : Int
  blocks : Int
  bfree : Int
  ffree : Int
  files : Int
deriving Repr, DecidableEq

structure StatsEnv where
  isBlockDevice : String → Except String Bool
  /-- parsed output of `blockdev getsize64 <path>` -/
  blockdevGetSize : String → Except String Int
  statfs : String → Except String StatfsResult
  isMountedPath : Except String Bool
  getDeviceName : Except String String

/-- `mounter.GetStatistics`: a block device reports its total size from the
block-size query; a filesystem path reports bytes and inodes from the
filesystem-statistics syscall. -/
def getStatistics (env : StatsEnv) (volumePath : String) : Except String VolumeStatistics :=
  match env.isBlockDevice volumePath with
  | .error e => .error s!"failed to determine if volume is block device: {e}"
  | .ok true =>
    match env.blockdevGetSize volumePath with
    | .error e => .error e
    | .ok n =>
      .ok { availableBytes := 0, totalBytes := n, usedBytes := 0,
            availableInodes := 0, totalInodes := 0, usedInodes := 0 }
  | .ok false =>
    match env.statfs volumePath with
    | .error e => .error e
    | .ok st =>
      .ok { availableBytes := st.bavail * st.bsize,
            totalBytes := st.blocks * st.bsize,
            usedBytes := (st.blocks - st.bfree) * st.bsize,
            availableInodes := st.ffree,
            totalInodes := st.files,
            usedInodes := st.files - st.ffree }

inductive UsageUnit where
  | bytes
  | inodes
deriving Repr, DecidableEq

structure VolumeUsage where
  unit : UsageUnit
  available : Int
  total : Int
  used : Int
deriving Repr, DecidableEq

def nodeStatsFromPath (env : StatsEnv) (isBlock : Bool) (actualPath : String) :
    Except DriverErr (List VolumeUsage) :=
  match getStatistics env actualPath with
  | .error e => .error (.status .internal s!"failed to retrieve capacity statistics: {e}")
  | .ok stats =>
    if isBlock then
      .ok [{ unit := .bytes, available := 0, total := stats.totalBytes, used := 0 }]
    else
      .ok [{ unit := .bytes, available := stats.availableBytes, total := stats.totalBytes,
             used := stats.usedBytes },
           { unit := .inodes, available := stats.availableInodes, total := stats.totalInodes,
             used := stats.usedInodes }]

/-- `NodeGetVolumeStats`: requires the path to be mounted, branches on
block-versus-filesystem, resolving a block path to its backing device
first. -/
def nodeGetVolumeStats (env : StatsEnv) (volumeId volumePath : String) :
    Except DriverErr (List VolumeUsage) :=
  if volumeId == "" then
    .error (.status .invalidArgument "NodeGetVolumeStats Volume ID must be provided")
  else if volumePath == "" then
    .error (.status .invalidArgument "NodeGetVolumeStats Volume Path must be provided")
  else
    match env.isMountedPath with
    | .error e => .error (.status .internal s!"failed to check if volume path is mounted: {e}")
    | .ok false => .error (.status .notFound s!"volume path {volumePath} is not mounted")
    | .ok true =>
      match env.isBlockDevice volumePath with
      | .error e => .error (.status .internal s!"failed to determine if path is block device: {e}")
      | .ok true =>
        match env.getDeviceName with
        | .error e =>
          .error (.status .internal s!"failed to get device name for block volume: {e}")
        | .ok devicePath => nodeStatsFromPath env true devicePath
      | .ok false => nodeStatsFromPath env false volumePath

/-! ## Concrete fixtures used by the closed theorems -/

def cfgEx : DriverConfig :=
  { name := "csi.thalassa.cloud", region := "nl-01", vpc := "vpc-1",
    clusterIdentity := "", kubeConfig := "",
    publishInfoVolumeName := "csi.thalassa.cloud/volume-name",
    customLabels := [], customAnnots := [] }

def machineA : Machine :=
  { identity := "machine-a", name := "node-a", slug := "node-a-slug" }

def volNoAttach : Volume :=
  { identity := "vol-1", name := "vol-one", size := 10, status := "available",
    attachments := [] }

def volAttachedToA : Volume :=
  { volNoAttach with attachments := [{ attachedToIdentity := "machine-a" }] }

def volAttachedToB : Volume :=
  { volNoAttach with attachments := [{ attachedToIdentity := "machine-b" }] }

def volEmptyAttachment : Volume :=
  { volNoAttach with attachments := [{ attachedToIdentity := "" }] }

def basePublishEnv : PublishEnv :=
  { getVolume := .error .errNotFound,
    nodeIdentityLookup := .error (.plain "no kubeconfig"),
    getMachine := fun _ => .ok machineA,
    listMachines := .ok [],
    attachResult := .ok (),
    detachResult := .ok (),
    statusAt := fun _ => .ok "attaching",
    cancelAt := none }

/-- Publish environment for the empty-`AttachedToIdentity` counterexample:
the volume has one attachment whose machine identity is the empty string,
and the remote reports "attached" as soon as the poll starts. -/
def envEmptyAttach : PublishEnv :=
  { basePublishEnv with
    getVolume := .ok volEmptyAttachment,
    statusAt := fun _ => .ok "attached" }

def envAttachedToA : PublishEnv :=
  { basePublishEnv with getVolume := .ok volAttachedToA }

def envAttachedToB : PublishEnv :=
  { basePublishEnv with getVolume := .ok volAttachedToB }

/-- Publish environment whose volume never leaves "attaching": the attach
poll runs into its deadline. -/
def envNeverAttached : PublishEnv :=
  { basePublishEnv with getVolume := .ok volNoAttach }

/-- Publish environment whose volume reports the upper-case status
"ATTACHED" from the first poll tick. -/
def envAttachesUpper : PublishEnv :=
  { basePublishEnv with
    getVolume := .ok volNoAttach,
    statusAt := fun _ => .ok "ATTACHED" }

/-- Publish environment whose caller cancels 25 seconds in while the volume
still reports "attaching". -/
def envCancelled : PublishEnv :=
  { basePublishEnv with
    getVolume := .ok volNoAttach,
    cancelAt := some 25 }

/-- Unpublish environment where the volume lookup fails with the joined
not-found error `Check` produces for a 404 whose body decodes. -/
def envUnpubJoined : PublishEnv :=
  { basePublishEnv with getVolume := .error (.joinedNotFound "volume vol-1 not found") }

/-- Unpublish environment where the volume lookup fails with the sentinel
`ErrNotFound` itself. -/
def envUnpubSentinel : PublishEnv :=
  { basePublishEnv with getVolume := .error .errNotFound }

/-- Unpublish environment where the volume exists but the node reference
resolves to no machine: the direct lookup misses and the scan finds no
match. -/
def envUnpubMachineMiss : PublishEnv :=
  { basePublishEnv with
    getVolume := .ok volAttachedToA,
    getMachine := fun _ => .error .errNotFound,
    listMachines := .ok [] }

def capMountEx : VolumeCapability := { modeSupported := true, accessType := .mount }

def reqCreateEx (cr : CapacityRange) : CreateVolumeReq :=
  { name := "pvc-1", capabilities := [capMountEx], capacityRange := some cr,
    parameters := [], requisiteRegions := [], snapshotSource := none }

def vtBlock : VolumeType := { identity := "vt-block", name := "block" }

/-- Create environment for a first call: no existing volume. -/
def envCreateFirst : CreateVolumeEnv :=
  { getVolume := .error .errNotFound,
    listVolumeTypes := .ok [vtBlock],
    getSnapshot := fun _ => .error .errNotFound,
    createResult := .ok { identity := "vol-abc", name := "pvc-1", size := 1,
                          status := "creating", attachments := [] } }

/-- Create environment for a repeat call: the lookup returns the volume the
first call created, whose stored size is `(giB + 1) / giB = 1` GiB. -/
def envCreateRepeatFractional : CreateVolumeEnv :=
  { envCreateFirst with
    getVolume := .ok (some { identity := "vol-abc", name := "pvc-1", size := 1,
                             status := "available", attachments := [] }) }

/-- Create environment for a repeat call after a 10 GiB create. -/
def envCreateRepeatWhole : CreateVolumeEnv :=
  { envCreateFirst with
    getVolume := .ok (some { identity := "vol-abc", name := "pvc-1", size := 10,
                             status := "available", attachments := [] }) }

/-- Driver configuration whose operator-supplied labels and annotations
collide with the driver-identifying keys. -/
def cfgCustomCollide : DriverConfig :=
  { cfgEx with
    customLabels := [("k8s.thalassa.cloud/csi-driver", "false"), ("team", "storage")],
    customAnnots := [("k8s.thalassa.cloud/description", "operator text"), ("note", "x")] }

def snapEx : Snapshot :=
  { identity := "snap-id-1", name := "snap-1", sourceVolumeIdentity := some "vol-abc",
    sizeGB := some 10, statusAvailable := true }

/-- Snapshot environment where neither a snapshot named "snap-1" nor a
volume named "vol-404" exists. -/
def snapEnvNoVolume : SnapEnv :=
  { listSnapshotsByName := .ok [],
    listVolumesByName := .ok [],
    createResult := .error (.other "create should not run"),
    waitAvailable := .ok (),
    getSnapshot := fun _ => .error .errNotFound }

/-- Snapshot environment where a snapshot with the requested name already
exists. -/
def snapEnvExisting : SnapEnv :=
  { snapEnvNoVolume with
    listSnapshotsByName := .ok [snapEx],
    getSnapshot := fun _ => .ok snapEx }

/-- Snapshot environment where two volumes match the source name. -/
def snapEnvTwoVolumes : SnapEnv :=
  { snapEnvNoVolume with
    listVolumesByName := .ok
      [{ identity := "vol-a", name := "vol-404", size := 1, status := "available",
         attachments := [] },
       { identity := "vol-b", name := "vol-404", size := 1, status := "available",
         attachments := [] }] }

def resolveToSda : String → Except String String := fun _ => .ok "/dev/sda"

def readStateRunning : String → Except String String := fun _ => .ok "running"

def readStateRunningNewline : String → Except String String := fun _ => .ok "running\n"

def stageEnvBase : StageEnv :=
  { validateAttachment := false,
    evalSymlinks := resolveToSda,
    readStateFile := readStateRunning,
    blkid := .ran,
    formatResult := .ok (),
    isMountedTarget := .ok false,
    mountResult := .ok (),
    sourceExists := false,
    needResize := .ok false,
    resizeResult := .ok () }

/-- Stage environment for a device with no filesystem signature (`blkid`
exits with code 2). -/
def stageEnvUnformatted : StageEnv := { stageEnvBase with blkid := .exited 2 }

def statsEnvBase : StatsEnv :=
  { isBlockDevice := fun _ => .ok false,
    blockdevGetSize := fun _ => .error "not a block device",
    statfs := fun _ => .ok { bavail := 100, bsize := 4096, blocks := 250, bfree := 120,
                             ffree := 900, files := 1000 },
    isMountedPath := .ok true,
    getDeviceName := .ok "/dev/sda" }

/-- Stats environment for a block volume path backed by `/dev/sda` of
4194304 bytes. -/
def statsEnvBlock : StatsEnv :=
  { statsEnvBase with
    isBlockDevice := fun _ => .ok true,
    blockdevGetSize := fun p => if p == "/dev/sda" then .ok 4194304 else .error "no such device" }

/-! ## Helper lemmas -/

theorem min_size_pos : (0 : Int) < minimumVolumeSizeInBytes := by decide

theorem min_lt_max_size : minimumVolumeSizeInBytes < maximumVolumeSizeInBytes := by decide

/-- The resolver reproduces every row of
`TestGetStorageSizeFromCapacityRange`. -/
theorem capacity_resolver_matches_test_rows :
    getStorageSizeFromCapacityRange none = .ok defaultVolumeSizeInBytes
    ∧ getStorageSizeFromCapacityRange (some ⟨0, 0⟩) = .ok defaultVolumeSizeInBytes
    ∧ getStorageSizeFromCapacityRange (some ⟨minimumVolumeSizeInBytes - 1, 0⟩)
        = .ok minimumVolumeSizeInBytes
    ∧ getStorageSizeFromCapacityRange (some ⟨maximumVolumeSizeInBytes + 1, 0⟩)
        = .error "required (16Ti) can not exceed maximum supported volume size (16Ti)"
    ∧ getStorageSizeFromCapacityRange (some ⟨0, minimumVolumeSizeInBytes - 1⟩)
        = .error "limit (1024Mi) can not be less than minimum supported volume size (1Gi)"
    ∧ getStorageSizeFromCapacityRange (some ⟨0, maximumVolumeSizeInBytes + 1⟩)
        = .error "limit (16Ti) can not exceed maximum supported volume size (16Ti)"
    ∧ getStorageSizeFromCapacityRange (some ⟨100 * giB, 50 * giB⟩)
        = .error "limit (50Gi) can not be less than required (100Gi) size"
    ∧ getStorageSizeFromCapacityRange (some ⟨100 * giB, 100 * giB⟩) = .ok (100 * giB)
    ∧ getStorageSizeFromCapacityRange (some ⟨100 * giB, 0⟩) = .ok (100 * giB)
    ∧ getStorageSizeFromCapacityRange (some ⟨0, 100 * giB⟩) = .ok (100 * giB) := by
  decide

/-- C6: the capacity resolver `getStorageSizeFromCapacityRange` satisfies,
for every `(required, limit)` byte pair: both absent (or a nil range) yields
the default size; `required` below the platform minimum is clamped up to the
minimum with no error provided no limit forbids it; `required` above the
platform maximum is an error; `limit` below the minimum is an error; `limit`
below `required` is an error; `limit` alone yields the limit; `required`
alone within bounds yields it; equal `required` and `limit` yield that
value; and the error messages render the boundary constants in
binary-prefixed form ("16Ti", "1Gi"). -/
theorem capacity_resolver_correct :
    getStorageSizeFromCapacityRange none = .ok defaultVolumeSizeInBytes
    ∧ (∀ required limit : Int, required ≤ 0 → limit ≤ 0 →
        getStorageSizeFromCapacityRange (some ⟨required, limit⟩) = .ok defaultVolumeSizeInBytes)
    ∧ (∀ required limit : Int, 0 < required → required < minimumVolumeSizeInBytes →
        (limit ≤ 0 ∨ (minimumVolumeSizeInBytes ≤ limit ∧ limit ≤ maximumVolumeSizeInBytes)) →
        getStorageSizeFromCapacityRange (some ⟨required, limit⟩) = .ok minimumVolumeSizeInBytes)
    ∧ (∀ required limit : Int, maximumVolumeSizeInBytes < required →
        ∃ msg, getStorageSizeFromCapacityRange (some ⟨required, limit⟩) = .error msg)
    ∧ (∀ required limit : Int, 0 < limit → limit < minimumVolumeSizeInBytes →
        ∃ msg, getStorageSizeFromCapacityRange (some ⟨required, limit⟩) = .error msg)
    ∧ (∀ required limit : Int, 0 < required → 0 < limit → limit < required →
        ∃ msg, getStorageSizeFromCapacityRange (some ⟨required, limit⟩) = .error msg)
    ∧ (∀ limit required : Int, required ≤ 0 → minimumVolumeSizeInBytes ≤ limit →
        limit ≤ maximumVolumeSizeInBytes →
        getStorageSizeFromCapacityRange (some ⟨required, limit⟩) = .ok limit)
    ∧ (∀ required limit : Int, limit ≤ 0 → minimumVolumeSizeInBytes ≤ required →
        required ≤ maximumVolumeSizeInBytes →
        getStorageSizeFromCapacityRange (some ⟨required, limit⟩) = .ok required)
    ∧ (∀ v : Int, minimumVolumeSizeInBytes ≤ v → v ≤ maximumVolumeSizeInBytes →
        getStorageSizeFromCapacityRange (some ⟨v, v⟩) = .ok v)
    ∧ formatBytes maximumVolumeSizeInBytes = "16Ti"
    ∧ formatBytes minimumVolumeSizeInBytes = "1Gi"
    ∧ getStorageSizeFromCapacityRange (some ⟨0, minimumVolumeSizeInBytes - 1⟩)
        = .error "limit (1024Mi) can not be less than minimum supported volume size (1Gi)"
    ∧ getStorageSizeFromCapacityRange (some ⟨100 * giB, 50 * giB⟩)
        = .error "limit (50Gi) can not be less than required (100Gi) size" := by
  have hm := min_size_pos
  have hmx := min_lt_max_size
  refine ⟨by decide, ?_, ?_, ?_, ?_, ?_, ?_, ?_, ?_, by decide, by decide, by decide, by decide⟩
  · intro required limit h1 h2
    simp only [getStorageSizeFromCapacityRange]
    split_ifs <;> first | rfl | omega
  · intro required limit h1 h2 h3
    simp only [getStorageSizeFromCapacityRange]
    rcases h3 with h3 | ⟨h3a, h3b⟩ <;>
      (split_ifs <;> first | (rw [max_eq_right (le_of_lt h2)]) | omega)
  · intro required limit h1
    simp only [getStorageSizeFromCapacityRange]
    split_ifs <;> first | exact ⟨_, rfl⟩ | omega
  · intro required limit h1 h2
    simp only [getStorageSizeFromCapacityRange]
    split_ifs <;> first | exact ⟨_, rfl⟩ | omega
  · intro required limit h1 h2 h3
    simp only [getStorageSizeFromCapacityRange]
    split_ifs <;> first | exact ⟨_, rfl⟩ | omega
  · intro limit required h1 h2 h3
    simp only [getStorageSizeFromCapacityRange]
    split_ifs <;> first | rfl | omega
  · intro required limit h1 h2 h3
    simp only [getStorageSizeFromCapacityRange]
    split_ifs <;> first | (rw [max_eq_left h2]) | omega
  · intro v h1 h2
    simp only [getStorageSizeFromCapacityRange]
    split_ifs <;> first | (rw [max_eq_left h1]) | omega

/-- C6 witness: the universally quantified clauses of
`capacity_resolver_correct` applied at the concrete inputs of the test
table. -/
theorem capacity_resolver_correct_witness :
    getStorageSizeFromCapacityRange (some ⟨minimumVolumeSizeInBytes - 1, 0⟩)
      = .ok minimumVolumeSizeInBytes
    ∧ getStorageSizeFromCapacityRange (some ⟨100 * giB, 0⟩) = .ok (100 * giB)
    ∧ getStorageSizeFromCapacityRange (some ⟨0, 100 * giB⟩) = .ok (100 * giB)
    ∧ getStorageSizeFromCapacityRange (some ⟨100 * giB, 100 * giB⟩) = .ok (100 * giB)
    ∧ (∃ msg, getStorageSizeFromCapacityRange (some ⟨maximumVolumeSizeInBytes + 1, 0⟩)
        = .error msg) := by
  refine ⟨?_, ?_, ?_, ?_, ?_⟩
  · exact capacity_resolver_correct.2.2.1 _ _ (by decide) (by decide) (Or.inl (by decide))
  · exact capacity_resolver_correct.2.2.2.2.2.2.2.1 _ _ (by decide) (by decide) (by decide)
  · exact capacity_resolver_correct.2.2.2.2.2.2.1 _ _ (by decide) (by decide) (by decide)
  · exact capacity_resolver_correct.2.2.2.2.2.2.2.2.1 _ (by decide) (by decide)
  · exact capacity_resolver_correct.2.2.2.1 _ _ (by decide)

/-- C10: `mounter.IsAttached` accepts a device only when the sysfs
device-state file content is byte-for-byte equal to "running" — the
comparison trims whitespace from the constant, not from the file content —
so a state file holding "running" followed by a newline fails validation. -/
theorem isAttached_exact_running_only
    (resolve readFile : String → Except String String) (source out content : String)
    (hres : resolve source = .ok out)
    (hdev : splitFileName out ≠ "")
    (hread : readFile ("/sys/class/block/" ++ splitFileName out ++ "/device/state")
      = .ok content) :
    (isAttached resolve readFile source = .ok () ↔ content = "running")
    ∧ (content = "running" ++ "\n" → ∃ e, isAttached resolve readFile source = .error e) := by
  have htrim : trimSpace runningState = "running" := by decide
  have hbeq : (splitFileName out == "") = false := beq_eq_false_iff_ne.mpr hdev
  constructor
  · simp only [isAttached, hres, hbeq, hread, htrim, Bool.false_eq_true, if_false]
    by_cases hc : content = "running"
    · simp [hc]
    · simp [hc]
  · intro h
    subst h
    simp only [isAttached, hres, hbeq, hread, htrim, Bool.false_eq_true, if_false]
    rw [if_pos (by decide)]
    exact ⟨_, rfl⟩

/-- C10 witness: `isAttached_exact_running_only` at a concrete device whose
symlink resolves to `/dev/sda`, once with file content "running" (accepted)
and once with "running\n" (rejected). -/
theorem isAttached_exact_running_only_witness :
    isAttached resolveToSda readStateRunning
      "/dev/disk/by-id/scsi-0QEMU_QEMU_HARDDISK_vol-1" = .ok ()
    ∧ ∃ e, isAttached resolveToSda readStateRunningNewline
        "/dev/disk/by-id/scsi-0QEMU_QEMU_HARDDISK_vol-1" = .error e := by
  constructor
  · exact (isAttached_exact_running_only resolveToSda readStateRunning _ "/dev/sda"
      "running" rfl (by decide) rfl).1.mpr rfl
  · exact (isAttached_exact_running_only resolveToSda readStateRunningNewline _ "/dev/sda"
      "running\n" rfl (by decide) rfl).2 (by decide)

/-- C9: `NodeGetVolumeStats` branches on block-versus-filesystem: a
successful call on a block device path returns exactly one usage entry
carrying total bytes only (from the block-size query on the backing
device), and a successful call on a filesystem path returns a bytes entry
with available/total/used plus an inode entry with available/total/used
(from the filesystem-statistics syscall). -/
theorem node_stats_branching (env : StatsEnv) (volumeId volumePath devicePath : String)
    (n : Int) (st : StatfsResult)
    (hvol : volumeId ≠ "") (hpath : volumePath ≠ "")
    (hmounted : env.isMountedPath = .ok true) :
    (env.isBlockDevice volumePath = .ok true →
      env.getDeviceName = .ok devicePath →
      env.isBlockDevice devicePath = .ok true →
      env.blockdevGetSize devicePath = .ok n →
      nodeGetVolumeStats env volumeId volumePath
        = .ok [{ unit := .bytes, available := 0, total := n, used := 0 }])
    ∧ (env.isBlockDevice volumePath = .ok false →
      env.statfs volumePath = .ok st →
      nodeGetVolumeStats env volumeId volumePath
        = .ok [{ unit := .bytes, available := st.bavail * st.bsize,
                 total := st.blocks * st.bsize,
                 used := (st.blocks - st.bfree) * st.bsize },
               { unit := .inodes, available := st.ffree, total := st.files,
                 used := st.files - st.ffree }]) := by
  have hb1 : (volumeId == "") = false := beq_eq_false_iff_ne.mpr hvol
  have hb2 : (volumePath == "") = false := beq_eq_false_iff_ne.mpr hpath
  constructor
  · intro h1 h2 h3 h4
    simp only [nodeGetVolumeStats, hb1, hb2, Bool.false_eq_true, if_false, hmounted,
      h1, h2, nodeStatsFromPath, getStatistics, h3, h4, if_true]
  · intro h1 h2
    simp only [nodeGetVolumeStats, hb1, hb2, Bool.false_eq_true, if_false, hmounted,
      h1, h2, nodeStatsFromPath, getStatistics, if_false]

/-- C9 witness: `node_stats_branching` at the concrete block and filesystem
environments. -/
theorem node_stats_branching_witness :
    nodeGetVolumeStats statsEnvBlock "vol-1" "/target/block-file"
      = .ok [{ unit := .bytes, available := 0, total := 4194304, used := 0 }]
    ∧ nodeGetVolumeStats statsEnvBase "vol-1" "/target/fs"
      = .ok [{ unit := .bytes, available := 409600, total := 1024000, used := 532480 },
             { unit := .inodes, available := 900, total := 1000, used := 100 }] := by
  constructor
  · exact (node_stats_branching statsEnvBlock "vol-1" "/target/block-file" "/dev/sda"
      4194304 ⟨100, 4096, 250, 120, 900, 1000⟩ (by decide) (by decide) rfl).1 rfl rfl rfl rfl
  · exact (node_stats_branching statsEnvBase "vol-1" "/target/fs" ""
      0 ⟨100, 4096, 250, 120, 900, 1000⟩ (by decide) (by decide) rfl).2 rfl rfl

theorem format_mem_resizePhase (env : StageEnv) (source target : String)
    (acts : List NodeAction) (d f : String) :
    NodeAction.format d f ∈ (nodeStageResizePhase env source target acts).2
      ↔ NodeAction.format d f ∈ acts := by
  simp only [nodeStageResizePhase]
  cases hs : env.sourceExists
  · simp
  · cases hn : env.needResize with
    | error e => simp
    | ok b =>
      cases b
      · simp
      · cases hr : env.resizeResult with
        | error e => simp
        | ok u => simp

theorem format_mem_mountPhase (env : StageEnv) (source target fsType : String)
    (opts : List String) (acts : List NodeAction) (d f : String) :
    NodeAction.format d f ∈ (nodeStageMountPhase env source target fsType opts acts).2
      ↔ NodeAction.format d f ∈ acts := by
  simp only [nodeStageMountPhase]
  cases hm : env.isMountedTarget with
  | error e => simp
  | ok b =>
    cases b
    · cases hmr : env.mountResult with
      | error e => simp
      | ok u => simp [format_mem_resizePhase]
    · simp [format_mem_resizePhase]

theorem getDeviceByIDPath_ne_empty (v : String) : getDeviceByIDPath v ≠ "" := by
  intro h
  have h2 := congrArg String.data h
  simp [getDeviceByIDPath, String.data_append] at h2

/-- C7: on a `NodeStageVolume` call with mount access and no no-format
marker in the volume context (and a passing attachment validation when
enabled), the format command is invoked if and only if the
filesystem-signature probe exits with code 2 (no signature); in particular a
device that already carries a signature is never reformatted. -/
theorem stage_formats_iff_no_signature (env : StageEnv)
    (volumeId stagingPath fsT : String) (flags : List String)
    (volumeContext : List (String × String))
    (hvol : volumeId ≠ "") (hpath : stagingPath ≠ "")
    (hmarker : hasNoFormatMarker volumeContext = false)
    (hattach : env.validateAttachment = true →
      isAttached env.evalSymlinks env.readStateFile (getDeviceByIDPath volumeId) = .ok ()) :
    (NodeAction.format (getDeviceByIDPath volumeId) (if fsT == "" then "ext4" else fsT)
        ∈ (nodeStageVolume env volumeId stagingPath (some (.mount fsT flags)) volumeContext).2
      ↔ env.blkid = .exited 2)
    ∧ (env.blkid = .ran →
      NodeAction.format (getDeviceByIDPath volumeId) (if fsT == "" then "ext4" else fsT)
        ∉ (nodeStageVolume env volumeId stagingPath (some (.mount fsT flags)) volumeContext).2) := by
  have hb1 : (volumeId == "") = false := beq_eq_false_iff_ne.mpr hvol
  have hb2 : (stagingPath == "") = false := beq_eq_false_iff_ne.mpr hpath
  have hsrc : (getDeviceByIDPath volumeId == "") = false :=
    beq_eq_false_iff_ne.mpr (getDeviceByIDPath_ne_empty volumeId)
  have hmain : NodeAction.format (getDeviceByIDPath volumeId) (if fsT == "" then "ext4" else fsT)
        ∈ (nodeStageVolume env volumeId stagingPath (some (.mount fsT flags)) volumeContext).2
      ↔ env.blkid = .exited 2 := by
    simp only [nodeStageVolume, hb1, hb2, Bool.false_eq_true, if_false, hmarker]
    have hgate : (env.validateAttachment &&
        !(isAttached env.evalSymlinks env.readStateFile (getDeviceByIDPath volumeId)
          matches .ok _)) = false := by
      cases hv : env.validateAttachment
      · simp
      · simp [hattach hv]
    simp only [hgate, Bool.false_eq_true, if_false]
    cases hf : env.blkid with
    | ran => simp [isFormatted, hsrc, format_mem_mountPhase]
    | notInPath => simp [isFormatted, hsrc]
    | execFail m => simp [isFormatted, hsrc]
    | exited c =>
      by_cases hc : c = 2
      · subst hc
        cases hfr : env.formatResult with
        | error e => simp [isFormatted, hsrc, blkidExitStatusNoIdentifiers]
        | ok u => simp [isFormatted, hsrc, blkidExitStatusNoIdentifiers, format_mem_mountPhase]
      · have : (c == 2) = false := beq_eq_false_iff_ne.mpr hc
        simp [isFormatted, hsrc, blkidExitStatusNoIdentifiers, this, hc]
  refine ⟨hmain, ?_⟩
  intro hran hmem
  rw [hran] at hmain
  exact absurd (hmain.mp hmem) (by simp)

/-- C7 witness: `stage_formats_iff_no_signature` at concrete environments —
format is issued on the unformatted device (`blkid` exit 2), and not issued
on the already-signed device (`blkid` exit 0). -/
theorem stage_formats_iff_no_signature_witness :
    NodeAction.format (getDeviceByIDPath "vol-1") "ext4"
      ∈ (nodeStageVolume stageEnvUnformatted "vol-1" "/staging" (some (.mount "" [])) []).2
    ∧ NodeAction.format (getDeviceByIDPath "vol-1") "ext4"
      ∉ (nodeStageVolume stageEnvBase "vol-1" "/staging" (some (.mount "" [])) []).2 := by
  constructor
  · exact ((stage_formats_iff_no_signature stageEnvUnformatted "vol-1" "/staging" "" [] []
      (by decide) (by decide) (by decide)
      (by intro h; exact absurd h (by decide))).1).mpr rfl
  · exact (stage_formats_iff_no_signature stageEnvBase "vol-1" "/staging" "" [] []
      (by decide) (by decide) (by decide)
      (by intro h; exact absurd h (by decide))).2 rfl

/-- C1 counterexample: a volume with one attachment whose
`AttachedToIdentity` is the empty string, published to machine "machine-a":
the volume has at least one attachment and none of them is to the resolved
machine, yet the call issues an `AttachVolume` and returns success instead
of failing with FailedPrecondition. -/
theorem publish_empty_attachment_proceeds :
    controllerPublishVolume cfgEx envEmptyAttach "vol-1" "machine-a" true false
      = (.ok [("csi.thalassa.cloud/volume-name", "vol-one")],
         [.attachVolume "vol-1" "machine-a"])
    ∧ volEmptyAttachment.attachments.length = 1
    ∧ (volEmptyAttachment.attachments.all
        (fun a => a.attachedToIdentity != "machine-a")) = true := by
  decide

/-- C1 (amended): for every ControllerPublishVolume call where the volume
exists and the logical node resolves to machine identity M: an existing
attachment to M yields success with the volume name in the publish context
and no AttachVolume call; and when the volume has at least one attachment,
none of them is to M, and the last attachment carries a non-empty machine
identity, the call fails FailedPrecondition with no AttachVolume call. -/
theorem publish_idempotent_or_conflict (cfg : DriverConfig) (env : PublishEnv)
    (volumeId nodeId machineId : String) (vol : Volume)
    (hvol : volumeId ≠ "") (hnode : nodeId ≠ "")
    (hget : env.getVolume = .ok vol)
    (hkube : cfg.kubeConfig = "")
    (hres : resolveMachine env nodeId = .resolved machineId) :
    ((∃ a ∈ vol.attachments, a.attachedToIdentity = machineId) →
      controllerPublishVolume cfg env volumeId nodeId true false
        = (.ok [(cfg.publishInfoVolumeName, vol.name)], []))
    ∧ (vol.attachments ≠ [] →
      (∀ a ∈ vol.attachments, a.attachedToIdentity ≠ machineId) →
      (∀ last, vol.attachments.getLast? = some last → last.attachedToIdentity ≠ "") →
      ∃ msg, controllerPublishVolume cfg env volumeId nodeId true false
        = (.error (.status .failedPrecondition msg), [])) := by
  have hb1 : (volumeId == "") = false := beq_eq_false_iff_ne.mpr hvol
  have hb2 : (nodeId == "") = false := beq_eq_false_iff_ne.mpr hnode
  have hkb : (cfg.kubeConfig == "") = true := by simp [hkube]
  have htrans : translateNodeId cfg env nodeId = .ok nodeId := by
    simp [translateNodeId, hkb]
  constructor
  · rintro ⟨a, ha, haeq⟩
    have hany : (vol.attachments.any fun a => a.attachedToIdentity == machineId) = true := by
      rw [List.any_eq_true]
      exact ⟨a, ha, by simp [haeq]⟩
    simp only [controllerPublishVolume, hb1, hb2, Bool.not_true, Bool.false_eq_true,
      if_false, hget, htrans, hres, hany, if_true]
  · intro hne hforall hlast
    have hany : (vol.attachments.any fun a => a.attachedToIdentity == machineId) = false := by
      rw [List.any_eq_false]
      intro a ha
      simpa using hforall a ha
    obtain ⟨last, hlast_eq⟩ : ∃ last, vol.attachments.getLast? = some last := by
      cases hl : vol.attachments.getLast? with
      | some x => exact ⟨x, rfl⟩
      | none => exact absurd (List.getLast?_eq_none_iff.mp hl) hne
    have hlastne := hlast last hlast_eq
    simp only [controllerPublishVolume, hb1, hb2, Bool.not_true, Bool.false_eq_true,
      if_false, hget, htrans, hres, hany, hlast_eq, Option.map_some', Option.getD_some]
    rw [if_pos hlastne]
    exact ⟨_, rfl⟩

/-- C1 witness: `publish_idempotent_or_conflict` at concrete states — a
volume already attached to "machine-a" publishes to it idempotently with no
attach call, and a volume attached to "machine-b" fails FailedPrecondition
with no attach call. -/
theorem publish_idempotent_or_conflict_witness :
    controllerPublishVolume cfgEx envAttachedToA "vol-1" "machine-a" true false
      = (.ok [("csi.thalassa.cloud/volume-name", "vol-one")], [])
    ∧ ∃ msg, controllerPublishVolume cfgEx envAttachedToB "vol-1" "machine-a" true false
        = (.error (.status .failedPrecondition msg), []) := by
  constructor
  · exact (publish_idempotent_or_conflict cfgEx envAttachedToA "vol-1" "machine-a" "machine-a"
      volAttachedToA (by decide) (by decide) rfl rfl (by decide)).1
      ⟨{ attachedToIdentity := "machine-a" }, by decide, rfl⟩
  · exact (publish_idempotent_or_conflict cfgEx envAttachedToB "vol-1" "machine-a" "machine-a"
      volAttachedToB (by decide) (by decide) rfl rfl (by decide)).2
      (by decide) (by decide)
      (by
        intro last hl
        simp only [volAttachedToB, volNoAttach, List.getLast?] at hl
        cases hl
        decide)

theorem pollRun_all_ok_success (c : Nat → Bool) (l : List Nat)
    (h : ∃ t ∈ l, c t = true) :
    ∃ t, pollRun none (fun t => .ok (c t)) l = .success t := by
  induction l with
  | nil => simp at h
  | cons hd tl ih =>
    by_cases hc : c hd = true
    · exact ⟨hd, by simp [pollRun, cancelledBy, hc]⟩
    · have hc2 : c hd = false := by simpa using hc
      obtain ⟨t, ht, hct⟩ := h
      rcases List.mem_cons.mp ht with rfl | htl
      · exact absurd hct hc
      · obtain ⟨t2, h2⟩ := ih ⟨t, htl, hct⟩
        exact ⟨t2, by simp [pollRun, cancelledBy, hc2, h2]⟩

theorem pollRun_all_ok_fail (c : Nat → Bool) (l : List Nat)
    (h : ∀ t ∈ l, c t = false) :
    pollRun none (fun t => .ok (c t)) l = .deadlineExceeded := by
  induction l with
  | nil => rfl
  | cons hd tl ih =>
    have hc := h hd (List.mem_cons_self hd tl)
    have hrest := ih (fun t ht => h t (List.mem_cons_of_mem hd ht))
    simp [pollRun, cancelledBy, hc, hrest]

theorem pollRun_all_ok_success_iff (c : Nat → Bool) (l : List Nat) :
    (∃ t, pollRun none (fun t => .ok (c t)) l = .success t) ↔ ∃ t ∈ l, c t = true := by
  constructor
  · rintro ⟨t, ht⟩
    by_contra h
    push_neg at h
    rw [pollRun_all_ok_fail c l (fun t2 ht2 => by simpa using h t2 ht2)] at ht
    exact PollOutcome.noConfusion ht
  · exact pollRun_all_ok_success c l

theorem pollRun_cancelled_result (cc : Nat) (c : Nat → Bool) (l : List Nat)
    (hbefore : ∀ t ∈ l, t < cc → c t = false)
    (hhit : ∃ t ∈ l, cc ≤ t) :
    ∃ t, pollRun (some cc) (fun t => .ok (c t)) l = .cancelled t := by
  induction l with
  | nil => simp at hhit
  | cons hd tl ih =>
    by_cases hcanc : cc ≤ hd
    · exact ⟨hd, by simp [pollRun, cancelledBy, hcanc]⟩
    · have hlt : hd < cc := Nat.lt_of_not_le hcanc
      have hch : c hd = false := hbefore hd (List.mem_cons_self hd tl) hlt
      obtain ⟨t, ht, hct⟩ := hhit
      rcases List.mem_cons.mp ht with rfl | htl
      · exact absurd hct hcanc
      · obtain ⟨t2, h2⟩ := ih
          (fun t2 ht2 hlt2 => hbefore t2 (List.mem_cons_of_mem hd ht2) hlt2) ⟨t, htl, hct⟩
        exact ⟨t2, by simp [pollRun, cancelledBy, hcanc, hch, h2]⟩

/-- C2 counterexample: when the attach poll's 5-minute deadline expires, the
handler returns `fmt.Errorf("failed to attach volume: %w", err)` — a plain
wrapped error rather than a gRPC status error, which gRPC surfaces as code
Unknown, not Internal. -/
theorem publish_timeout_unknown_not_internal :
    (controllerPublishVolume cfgEx envNeverAttached "vol-1" "machine-a" true false).1
      = .error (.pollFail "failed to attach volume" .timedOut)
    ∧ grpcCodeOf (.pollFail "failed to attach volume" .timedOut) = .unknown
    ∧ Code.unknown ≠ Code.internal := by
  decide

/-- C2 (amended): for every ControllerPublishVolume call that issues an
attach, the convergence loop polls the status at 10-second ticks up to the
5-minute deadline, compares the status to "attached" case-insensitively,
checks caller cancellation on every tick, and on deadline expiry fails with
a retryable wrapped plain error (surfaced as gRPC code Unknown, a
non-terminal code — not an Internal status error). -/
theorem publish_poll_behavior (cfg : DriverConfig) (env : PublishEnv)
    (volumeId nodeId machineId : String) (vol : Volume) (s : Nat → String)
    (hvol : volumeId ≠ "") (hnode : nodeId ≠ "")
    (hget : env.getVolume = .ok vol)
    (hkube : cfg.kubeConfig = "")
    (hres : resolveMachine env nodeId = .resolved machineId)
    (hempty : vol.attachments = [])
    (hattachok : env.attachResult = .ok ())
    (hstat : ∀ t, env.statusAt t = .ok (s t)) :
    (env.cancelAt = none →
      ((controllerPublishVolume cfg env volumeId nodeId true false).1
          = .ok [(cfg.publishInfoVolumeName, vol.name)]
        ↔ ∃ t ∈ pollTimes 10 300, equalFold (s t) "attached" = true))
    ∧ (env.cancelAt = none →
      (∀ t ∈ pollTimes 10 300, equalFold (s t) "attached" = false) →
      (controllerPublishVolume cfg env volumeId nodeId true false).1
        = .error (.pollFail "failed to attach volume" .timedOut)
      ∧ grpcCodeOf (.pollFail "failed to attach volume" .timedOut) = .unknown)
    ∧ (∀ cc, env.cancelAt = some cc → cc ≤ 300 →
      (∀ t ∈ pollTimes 10 300, t < cc → equalFold (s t) "attached" = false) →
      (controllerPublishVolume cfg env volumeId nodeId true false).1
        = .error (.pollFail "failed to attach volume" .cancelled)) := by
  have hb1 : (volumeId == "") = false := beq_eq_false_iff_ne.mpr hvol
  have hb2 : (nodeId == "") = false := beq_eq_false_iff_ne.mpr hnode
  have hkb : (cfg.kubeConfig == "") = true := by simp [hkube]
  have htrans : translateNodeId cfg env nodeId = .ok nodeId := by
    simp [translateNodeId, hkb]
  have hany : (vol.attachments.any fun a => a.attachedToIdentity == machineId) = false := by
    simp [hempty]
  have hred : controllerPublishVolume cfg env volumeId nodeId true false
      = publishPollResult env cfg vol volumeId machineId := by
    simp only [controllerPublishVolume, hb1, hb2, Bool.not_true, Bool.false_eq_true,
      if_false, hget, htrans, hres, hany, hempty, List.getLast?_nil, Option.map_none',
      Option.getD_none]
    rw [hattachok]
    simp
  have hcond : (fun t => (env.statusAt t).map (fun x => equalFold x "attached"))
      = fun t => Except.ok (equalFold (s t) "attached") := by
    funext t
    rw [hstat t]
    rfl
  refine ⟨?_, ?_, ?_⟩
  · intro hcanc
    have hw : waitUntilVolumeStatus env "attached"
        = pollRun none (fun t => .ok (equalFold (s t) "attached")) (pollTimes 10 300) := by
      rw [waitUntilVolumeStatus, pollUntilContextTimeout, hcond, hcanc]
    rw [hred]
    constructor
    · intro hok
      by_contra h
      push_neg at h
      have hfail : pollRun none (fun t => .ok (equalFold (s t) "attached"))
          (pollTimes 10 300) = .deadlineExceeded :=
        pollRun_all_ok_fail _ _ (fun t ht => by simpa using h t ht)
      simp [publishPollResult, hw, hfail] at hok
    · intro hex
      obtain ⟨t, ht⟩ := pollRun_all_ok_success _ _ hex
      simp [publishPollResult, hw, ht]
  · intro hcanc hall
    have hw : waitUntilVolumeStatus env "attached"
        = pollRun none (fun t => .ok (equalFold (s t) "attached")) (pollTimes 10 300) := by
      rw [waitUntilVolumeStatus, pollUntilContextTimeout, hcond, hcanc]
    have hfail := pollRun_all_ok_fail (fun t => equalFold (s t) "attached") _ hall
    rw [hred]
    exact ⟨by simp [publishPollResult, hw, hfail], rfl⟩
  · intro cc hcanc hle hbefore
    have hw : waitUntilVolumeStatus env "attached"
        = pollRun (some cc) (fun t => .ok (equalFold (s t) "attached")) (pollTimes 10 300) := by
      rw [waitUntilVolumeStatus, pollUntilContextTimeout, hcond, hcanc]
    obtain ⟨t, ht⟩ := pollRun_cancelled_result cc (fun t => equalFold (s t) "attached")
      (pollTimes 10 300) hbefore ⟨300, by decide, hle⟩
    rw [hred]
    simp [publishPollResult, hw, ht]

/-- C2 witness: `publish_poll_behavior` at concrete environments — the
upper-case status "ATTACHED" satisfies the poll at the first tick, and a
cancellation 25 seconds in stops the loop with a cancellation error. -/
theorem publish_poll_behavior_witness :
    (controllerPublishVolume cfgEx envAttachesUpper "vol-1" "machine-a" true false).1
      = .ok [("csi.thalassa.cloud/volume-name", "vol-one")]
    ∧ (controllerPublishVolume cfgEx envCancelled "vol-1" "machine-a" true false).1
      = .error (.pollFail "failed to attach volume" .cancelled) := by
  constructor
  · exact ((publish_poll_behavior cfgEx envAttachesUpper "vol-1" "machine-a" "machine-a"
      volNoAttach (fun _ => "ATTACHED") (by decide) (by decide) rfl rfl (by decide) rfl rfl
      (fun _ => rfl)).1 rfl).mpr ⟨0, by decide, by decide⟩
  · exact (publish_poll_behavior cfgEx envCancelled "vol-1" "machine-a" "machine-a"
      volNoAttach (fun _ => "attaching") (by decide) (by decide) rfl rfl (by decide) rfl rfl
      (fun _ => rfl)).2.2 25 rfl (by decide) (by decide)

/-- C3: `ControllerUnpublishVolume` evaluated at the inputs that decide the
claim.  When the volume lookup fails with the joined not-found error that
`Check` produces for a 404 whose body decodes as a server message, the
handler's `err == client.ErrNotFound` identity comparison misses and the
call returns the error instead of idempotent success — the code contradicts
its own "assuming volume is detached because it does not exist" intent.  The
sentinel not-found and a machine-resolution miss do return success with no
detach. -/
theorem unpublish_joined_notfound_fails :
    controllerUnpublishVolume cfgEx envUnpubJoined "vol-1" "node-a"
      = (.error (.goErr (.joinedNotFound "volume vol-1 not found")), [])
    ∧ GoErr.isNotFound (.joinedNotFound "volume vol-1 not found") = true
    ∧ thalassaCheck 404 (some "volume vol-1 not found") ""
        = some (.joinedNotFound "volume vol-1 not found")
    ∧ controllerUnpublishVolume cfgEx envUnpubSentinel "vol-1" "node-a" = (.ok (), [])
    ∧ controllerUnpublishVolume cfgEx envUnpubMachineMiss "vol-1" "node-a" = (.ok (), []) := by
  decide

/-- C4 counterexample: two CreateVolume calls with the same name and the
same resolved size `giB + 1` (not a whole GiB).  The first call issues a
remote create whose stored size is truncated to 1 GiB; the repeat call then
compares `1 GiB ≠ giB + 1` and fails AlreadyExists instead of returning the
identity. -/
theorem create_repeat_fractional_conflict :
    (createVolume cfgEx envCreateFirst (reqCreateEx ⟨giB + 1, 0⟩)).2
      = [.createVolume "pvc-1" 1 "vt-block" (volumeLabels cfgEx) (volumeAnnots cfgEx) none]
    ∧ (createVolume cfgEx envCreateFirst (reqCreateEx ⟨giB + 1, 0⟩)).1
      = .ok { volumeId := "vol-abc", capacityBytes := giB + 1,
              accessibleRegion := some "nl-01", contentSnapshotId := none }
    ∧ (createVolume cfgEx envCreateRepeatFractional (reqCreateEx ⟨giB + 1, 0⟩)).1
      = .error (.status .alreadyExists "invalid option requested size: 1073741825")
    ∧ (createVolume cfgEx envCreateRepeatFractional (reqCreateEx ⟨giB + 1, 0⟩)).2 = [] := by
  decide

/-- C4 (amended): CreateVolume is idempotent keyed by name for sizes in
whole GiB.  When the lookup returns an existing volume: if the stored size
(in GiB) times `giB` equals the resolved byte size the call returns that
volume's identity with no error and no remote create — in particular a
repeat call whose resolved size is a multiple of 1 GiB and matches the
stored size `size / giB` recorded by the first call; if the stored size
times `giB` differs from the resolved size — because the resolved size is
not a GiB multiple (truncated on create) or because it genuinely differs
from the stored size — the call fails AlreadyExists with no remote create;
and DeleteVolume on an already-absent id returns success. -/
theorem create_idempotent_on_whole_giB (cfg : DriverConfig) (env : CreateVolumeEnv)
    (req : CreateVolumeReq) (vol : Volume) (size : Int)
    (hname : req.name ≠ "")
    (hcaps : req.capabilities.length ≠ 0)
    (hvalid : validateCapabilities req.capabilities = [])
    (hsize : getStorageSizeFromCapacityRange req.capacityRange = .ok size)
    (hreg : req.requisiteRegions = [])
    (hget : env.getVolume = .ok (some vol)) :
    (vol.size * giB = size →
      createVolume cfg env req
        = (.ok { volumeId := vol.identity, capacityBytes := vol.size * giB,
                 accessibleRegion := none, contentSnapshotId := none }, []))
    ∧ (vol.size * giB ≠ size →
      ∃ msg, createVolume cfg env req = (.error (.status .alreadyExists msg), []))
    ∧ (vol.size = size / giB → (size / giB) * giB = size →
      createVolume cfg env req
        = (.ok { volumeId := vol.identity, capacityBytes := size,
                 accessibleRegion := none, contentSnapshotId := none }, []))
    ∧ (∀ volumeId : String, volumeId ≠ "" → ∀ e : GoErr, e.isNotFound = true →
      deleteVolume (.error e) volumeId = .ok ()) := by
  have hb1 : (req.name == "") = false := beq_eq_false_iff_ne.mpr hname
  have hb2 : (req.capabilities.length == 0) = false := by
    simpa using hcaps
  have hmatchCase : ∀ _ : vol.size * giB = size,
      createVolume cfg env req
        = (.ok { volumeId := vol.identity, capacityBytes := vol.size * giB,
                 accessibleRegion := none, contentSnapshotId := none }, []) := by
    intro hmul
    simp only [createVolume, hb1, hb2, Bool.false_eq_true, if_false, hvalid, hsize, hreg,
      List.find?_nil, hget, ne_eq, not_true, if_false]
    rw [if_neg (not_not_intro hmul)]
  refine ⟨hmatchCase, ?_, ?_, ?_⟩
  · intro hmul
    have hcond : (vol.size * giB = size) = False := by simp [hmul]
    refine ⟨s!"invalid option requested size: {size}", ?_⟩
    simp only [createVolume, hb1, hb2, Bool.false_eq_true, if_false, hvalid, hsize, hreg,
      List.find?_nil, hget, ne_eq, not_true, hcond, not_false_iff, if_true]
  · intro h1 h2
    have hmul : vol.size * giB = size := by rw [h1]; exact h2
    have hres := hmatchCase hmul
    rw [hmul] at hres
    exact hres
  · intro volumeId hvid e he
    have hb3 : (volumeId == "") = false := beq_eq_false_iff_ne.mpr hvid
    simp [deleteVolume, hb3, he]

/-- C4 witness: `create_idempotent_on_whole_giB` at concrete repeat calls —
a 10 GiB repeat against a stored 10 GiB volume returns the stored identity
with no error and no create, the `giB + 1` repeat (truncated to 1 GiB on
create) fails AlreadyExists, a 20 GiB repeat against the stored 10 GiB
volume (a resolved size genuinely different from the stored size) fails
AlreadyExists, and deleting an absent volume (joined not-found) succeeds. -/
theorem create_idempotent_on_whole_giB_witness :
    createVolume cfgEx envCreateRepeatWhole (reqCreateEx ⟨10 * giB, 0⟩)
      = (.ok { volumeId := "vol-abc", capacityBytes := 10 * giB,
               accessibleRegion := none, contentSnapshotId := none }, [])
    ∧ (∃ msg, createVolume cfgEx envCreateRepeatFractional (reqCreateEx ⟨giB + 1, 0⟩)
        = (.error (.status .alreadyExists msg), []))
    ∧ (∃ msg, createVolume cfgEx envCreateRepeatWhole (reqCreateEx ⟨20 * giB, 0⟩)
        = (.error (.status .alreadyExists msg), []))
    ∧ deleteVolume (.error (.joinedNotFound "volume gone")) "vol-x" = .ok () := by
  have h1 := create_idempotent_on_whole_giB cfgEx envCreateRepeatWhole
    (reqCreateEx ⟨10 * giB, 0⟩)
    { identity := "vol-abc", name := "pvc-1", size := 10, status := "available",
      attachments := [] }
    (10 * giB) (by decide) (by decide) (by decide) (by decide) rfl rfl
  have h2 := create_idempotent_on_whole_giB cfgEx envCreateRepeatFractional
    (reqCreateEx ⟨giB + 1, 0⟩)
    { identity := "vol-abc", name := "pvc-1", size := 1, status := "available",
      attachments := [] }
    (giB + 1) (by decide) (by decide) (by decide) (by decide) rfl rfl
  have h3 := create_idempotent_on_whole_giB cfgEx envCreateRepeatWhole
    (reqCreateEx ⟨20 * giB, 0⟩)
    { identity := "vol-abc", name := "pvc-1", size := 10, status := "available",
      attachments := [] }
    (20 * giB) (by decide) (by decide) (by decide) (by decide) rfl rfl
  exact ⟨h1.2.2.1 (by decide) (by decide), h2.2.1 (by decide), h3.2.1 (by decide),
    h1.2.2.2 "vol-x" (by decide) _ rfl⟩

theorem lookupKV_cons (a : String × String) (m : List (String × String)) (k : String) :
    lookupKV (a :: m) k = if a.1 == k then some a.2 else lookupKV m k := by
  cases h : (a.1 == k) <;> simp [lookupKV, List.find?_cons, h]

theorem lookupKV_append (l1 l2 : List (String × String)) (k : String) :
    lookupKV (l1 ++ l2) k = (lookupKV l1 k).or (lookupKV l2 k) := by
  induction l1 with
  | nil => simp [lookupKV]
  | cons a l ih =>
    simp only [List.cons_append, lookupKV_cons, ih]
    cases h : (a.1 == k) <;> simp [h]

theorem lookupKV_isSome_of_any (m : List (String × String)) (a : String)
    (h : m.any (fun kv => kv.1 == a) = true) : (lookupKV m a).isSome = true := by
  induction m with
  | nil => simp at h
  | cons hd tl ih =>
    rw [lookupKV_cons]
    cases hh : (hd.1 == a) with
    | true => simp
    | false =>
      simp only [List.any_cons, hh, Bool.false_or] at h
      simpa [hh] using ih h

theorem lookupKV_insertIfAbsent (m : List (String × String)) (a b k : String) :
    lookupKV (insertIfAbsent m a b) k = (lookupKV m k).or (lookupKV [(a, b)] k) := by
  unfold insertIfAbsent
  cases h : m.any (fun kv => kv.1 == a) with
  | false => simp [lookupKV_append]
  | true =>
    simp only [if_true]
    by_cases hk : k = a
    · subst hk
      have hs := lookupKV_isSome_of_any m k h
      cases hv : lookupKV m k with
      | none => rw [hv] at hs; simp at hs
      | some v => simp
    · have hnone : lookupKV [(a, b)] k = none := by
        rw [lookupKV_cons]
        simp [beq_eq_false_iff_ne.mpr (fun he => hk he.symm), lookupKV]
      simp [hnone]

theorem lookupKV_mergeCustom (custom : List (String × String))
    (base : List (String × String)) (k : String) :
    lookupKV (mergeCustom base custom) k = (lookupKV base k).or (lookupKV custom k) := by
  induction custom generalizing base with
  | nil => simp [mergeCustom, lookupKV]
  | cons kv rest ih =>
    show lookupKV (mergeCustom (insertIfAbsent base kv.1 kv.2) rest) k = _
    rw [ih, lookupKV_insertIfAbsent, Option.or_assoc]
    congr 1
    rw [lookupKV_cons, lookupKV_cons]
    cases h : (kv.1 == k) <;> simp [lookupKV]

theorem lookupKV_map_set (m : List (String × String)) (a b k : String) (hk : k ≠ a) :
    lookupKV (m.map (fun kv => if kv.1 == a then (a, b) else kv)) k = lookupKV m k := by
  have h2 : (a == k) = false := beq_eq_false_iff_ne.mpr (fun he => hk he.symm)
  induction m with
  | nil => rfl
  | cons hd tl ih =>
    simp only [List.map_cons]
    cases hh : (hd.1 == a) with
    | true =>
      have h3 : (hd.1 == k) = false := by rw [beq_iff_eq.mp hh]; exact h2
      rw [if_pos rfl, lookupKV_cons, lookupKV_cons]
      simp only [h2, h3, Bool.false_eq_true, if_false]
      exact ih
    | false =>
      rw [if_neg (by simp [hh]), lookupKV_cons, lookupKV_cons, ih]

theorem lookupKV_setKV_ne (m : List (String × String)) (a b k : String) (hk : k ≠ a) :
    lookupKV (setKV m a b) k = lookupKV m k := by
  unfold setKV
  cases h : m.any (fun kv => kv.1 == a) with
  | false =>
    have hnone : lookupKV [(a, b)] k = none := by
      rw [lookupKV_cons]
      simp [beq_eq_false_iff_ne.mpr (fun he => hk he.symm), lookupKV]
    simp [lookupKV_append, hnone]
  | true =>
    rw [if_pos rfl]
    exact lookupKV_map_set m a b k hk

/-- C5 counterexample: with operator-supplied labels and annotations that
collide with the driver-identifying keys, the map sent with the remote
create carries the driver's values, not the operator's — the custom entries
are only added for keys not already present, so on a collision the driver
value wins, contrary to the claim. -/
theorem labels_operator_loses :
    (createVolume cfgCustomCollide envCreateFirst (reqCreateEx ⟨10 * giB, 0⟩)).2
      = [.createVolume "pvc-1" 10 "vt-block" (volumeLabels cfgCustomCollide)
          (volumeAnnots cfgCustomCollide) none]
    ∧ lookupKV cfgCustomCollide.customLabels "k8s.thalassa.cloud/csi-driver" = some "false"
    ∧ lookupKV (volumeLabels cfgCustomCollide) "k8s.thalassa.cloud/csi-driver" = some "true"
    ∧ lookupKV (volumeLabels cfgCustomCollide) "k8s.thalassa.cloud/csi-driver" ≠ some "false"
    ∧ lookupKV (volumeAnnots cfgCustomCollide) "k8s.thalassa.cloud/description"
        = some "Provisioned by Thalassa CSI driver" := by
  decide

/-- C5 (amended): the label and annotation maps sent with a remote create
are the merge of driver-identifying entries with operator-supplied ones such
that on a key collision the driver-supplied value wins (operator entries are
added only for keys not already present), and the driver-identity keys are
always present with the driver's values. -/
theorem labels_merge_driver_identity (cfg : DriverConfig) :
    lookupKV (volumeLabels cfg) "k8s.thalassa.cloud/csi-driver" = some "true"
    ∧ lookupKV (volumeLabels cfg) "k8s.thalassa.cloud/csi-driver-name" = some cfg.name
    ∧ lookupKV (volumeAnnots cfg) "k8s.thalassa.cloud/description"
        = some "Provisioned by Thalassa CSI driver"
    ∧ (∀ k v, lookupKV cfg.customLabels k = some v →
        k ≠ "k8s.thalassa.cloud/csi-driver" →
        k ≠ "k8s.thalassa.cloud/csi-driver-name" →
        k ≠ "k8s.thalassa.cloud/cluster-identity" →
        lookupKV (volumeLabels cfg) k = some v)
    ∧ (∀ k v, lookupKV cfg.customAnnots k = some v →
        k ≠ "k8s.thalassa.cloud/description" →
        lookupKV (volumeAnnots cfg) k = some v) := by
  have hdl1 : lookupKV (driverLabels cfg) "k8s.thalassa.cloud/csi-driver" = some "true" := by
    simp [driverLabels, lookupKV_cons]
  have hdl2 : lookupKV (driverLabels cfg) "k8s.thalassa.cloud/csi-driver-name"
      = some cfg.name := by
    simp [driverLabels, lookupKV_cons, lookupKV]
  have hda : lookupKV driverAnnots "k8s.thalassa.cloud/description"
      = some "Provisioned by Thalassa CSI driver" := by
    simp [driverAnnots, lookupKV_cons]
  have hsplit : ∀ k : String, k ≠ "k8s.thalassa.cloud/cluster-identity" →
      lookupKV (volumeLabels cfg) k
        = lookupKV (mergeCustom (driverLabels cfg) cfg.customLabels) k := by
    intro k hk
    unfold volumeLabels
    by_cases hc : cfg.clusterIdentity = ""
    · simp [hc]
    · rw [if_pos hc]
      exact lookupKV_setKV_ne _ _ _ _ hk
  refine ⟨?_, ?_, ?_, ?_, ?_⟩
  · rw [hsplit _ (by decide), lookupKV_mergeCustom, hdl1]
    rfl
  · rw [hsplit _ (by decide), lookupKV_mergeCustom, hdl2]
    rfl
  · rw [volumeAnnots, lookupKV_mergeCustom, hda]
    rfl
  · intro k v hv h1 h2 h3
    have hdl : lookupKV (driverLabels cfg) k = none := by
      rw [driverLabels, lookupKV_cons, lookupKV_cons]
      simp [beq_eq_false_iff_ne.mpr (fun he => h1 he.symm),
        beq_eq_false_iff_ne.mpr (fun he => h2 he.symm), lookupKV]
    rw [hsplit _ h3, lookupKV_mergeCustom, hdl, hv]
    rfl
  · intro k v hv h1
    have hda2 : lookupKV driverAnnots k = none := by
      rw [driverAnnots, lookupKV_cons]
      simp [beq_eq_false_iff_ne.mpr (fun he => h1 he.symm), lookupKV]
    rw [volumeAnnots, lookupKV_mergeCustom, hda2, hv]
    rfl

/-- C5 witness: `labels_merge_driver_identity` at the colliding
configuration — driver keys keep driver values, non-colliding operator keys
survive. -/
theorem labels_merge_driver_identity_witness :
    lookupKV (volumeLabels cfgCustomCollide) "k8s.thalassa.cloud/csi-driver" = some "true"
    ∧ lookupKV (volumeLabels cfgCustomCollide) "team" = some "storage"
    ∧ lookupKV (volumeAnnots cfgCustomCollide) "note" = some "x" := by
  refine ⟨(labels_merge_driver_identity cfgCustomCollide).1, ?_, ?_⟩
  · exact (labels_merge_driver_identity cfgCustomCollide).2.2.2.1 "team" "storage"
      (by decide) (by decide) (by decide) (by decide)
  · exact (labels_merge_driver_identity cfgCustomCollide).2.2.2.2 "note" "x"
      (by decide) (by decide)

/-- C8: `CreateSnapshot` evaluated at the inputs that decide the claim.
With no snapshot named "snap-1" and no volume named "vol-404",
`getOrCreateSnapshot` fails with a NotFound status, but `CreateSnapshot`
re-wraps every inner error as `status.Error(codes.Internal, err.Error())`,
so the call surfaces Internal instead of NotFound.  The idempotent
by-exact-name path returns the existing snapshot with no remote create, and
an ambiguous source (two matching volumes) surfaces Internal. -/
theorem snapshot_notfound_wrapped_internal :
    createSnapshotCall snapEnvNoVolume "snap-1" "vol-404"
      = (.error (.status .internal "rpc error: volume with name vol-404 not found"), [])
    ∧ (getOrCreateSnapshot snapEnvNoVolume "snap-1" "vol-404").1
      = .error (.status .notFound "volume with name vol-404 not found")
    ∧ createSnapshotCall snapEnvExisting "snap-1" "vol-404"
      = (.ok { snapshotId := "snap-id-1", sourceVolumeId := "vol-abc",
               sizeBytes := 10 * giB, readyToUse := true }, [])
    ∧ (createSnapshotCall snapEnvTwoVolumes "snap-1" "vol-404").1
      = .error (.status .internal "rpc error: multiple volumes found with name vol-404") := by
  decide

end ThalassaCSI
